import Mathlib

/-!
Verification development for the Blender-Mcp-Server repository.

The development shallowly embeds the socket bridge of the repository:

* `src/src/blender_mcp_server/server.py` (and its byte-identical copy in
  `simple_server.py`): class `BlenderConnection` with `connect`, `disconnect`,
  `send_command` and `_receive_response`, the module-level
  `get_blender_connection`, and the confirm-gated destructive tools
  (`delete_scene`, `clear_scene`, `delete_object`, `delete_material`,
  `remove_modifier`, `clear_animation`, `load_scene`);
* `src/blender_addon/__init__.py`: `handle_client` and `execute_command`.

JSON documents are modelled by the inductive `JValue`; acceptance by Python's
`json.loads` is modelled by the executable fueled recogniser `jsonParse`, and
`json.dumps` (default separators, `ensure_ascii=True`) by `dumps`.  Socket
interaction is modelled by lists of receive events, and the nondeterminism of
the operating system and of Blender (connect success, sendall outcome, received
bytes) by an explicit `World` record passed to each modelled call.
-/

namespace BlenderMcp

/-- A parsed JSON document.  Numbers keep their source lexeme: none of the
verified properties inspects numeric values, and keeping the lexeme avoids
committing to a floating-point semantics. -/
inductive JValue where
  | null
  | bool (b : Bool)
  | num (lexeme : String)
  | str (s : String)
  | arr (elems : List JValue)
  | obj (fields : List (String × JValue))

/-- JSON whitespace accepted between tokens by Python's `json.loads`. -/
def isJsonWs (c : Char) : Bool :=
  c = ' ' || c = '\t' || c = '\n' || c = '\r'

def skipWs : List Char → List Char
  | [] => []
  | c :: cs => if isJsonWs c then skipWs cs else c :: cs

/-- Consume an expected literal character sequence, returning the remainder. -/
def eatChars : List Char → List Char → Option (List Char)
  | [], cs => some cs
  | _ :: _, [] => none
  | p :: ps, c :: cs => if c = p then eatChars ps cs else none

def hexVal (c : Char) : Option Nat :=
  if '0' ≤ c ∧ c ≤ '9' then some (c.toNat - 48)
  else if 'a' ≤ c ∧ c ≤ 'f' then some (c.toNat - 87)
  else if 'A' ≤ c ∧ c ≤ 'F' then some (c.toNat - 55)
  else none

/-- Body of a JSON string after the opening quote: returns the decoded
characters and the input after the closing quote.  Escapes follow the JSON
grammar as `json.loads` accepts it; a `\uXXXX` escape is decoded to the single
character of that code point (surrogate-pair recombination is not modelled;
no verified property exchanges astral-plane text). -/
def strChars : Nat → List Char → List Char → Option (List Char × List Char)
  | 0, _, _ => none
  | _ + 1, _, [] => none
  | fuel + 1, acc, c :: cs =>
    if c = '"' then some (acc.reverse, cs)
    else if c = '\\' then
      match cs with
      | [] => none
      | e :: cs2 =>
        if e = '"' then strChars fuel ('"' :: acc) cs2
        else if e = '\\' then strChars fuel ('\\' :: acc) cs2
        else if e = '/' then strChars fuel ('/' :: acc) cs2
        else if e = 'b' then strChars fuel (Char.ofNat 8 :: acc) cs2
        else if e = 'f' then strChars fuel (Char.ofNat 12 :: acc) cs2
        else if e = 'n' then strChars fuel ('\n' :: acc) cs2
        else if e = 'r' then strChars fuel ('\r' :: acc) cs2
        else if e = 't' then strChars fuel ('\t' :: acc) cs2
        else if e = 'u' then
          match cs2 with
          | h1 :: h2 :: h3 :: h4 :: cs3 =>
            match hexVal h1, hexVal h2, hexVal h3, hexVal h4 with
            | some a, some b, some c3, some d =>
              strChars fuel (Char.ofNat (a * 4096 + b * 256 + c3 * 16 + d) :: acc) cs3
            | _, _, _, _ => none
          | _ => none
        else none
    else if c.toNat < 32 then none
    else strChars fuel (c :: acc) cs

def takeDigits : List Char → List Char × List Char
  | [] => ([], [])
  | c :: cs =>
    if c.isDigit then
      let p := takeDigits cs
      (c :: p.1, p.2)
    else ([], c :: cs)

/-- Optional fraction part of a JSON number lexeme. -/
def numFrac : List Char → Option (List Char × List Char)
  | '.' :: cs =>
    match takeDigits cs with
    | ([], _) => none
    | (fd, r) => some ('.' :: fd, r)
  | cs => some ([], cs)

/-- Optional exponent part of a JSON number lexeme. -/
def numExp : List Char → Option (List Char × List Char)
  | [] => some ([], [])
  | c :: cs =>
    if c = 'e' ∨ c = 'E' then
      let p : List Char × List Char :=
        match cs with
        | s :: cs2 => if s = '+' ∨ s = '-' then ([s], cs2) else ([], s :: cs2)
        | [] => ([], [])
      match takeDigits p.2 with
      | ([], _) => none
      | (ed, r) => some (c :: (p.1 ++ ed), r)
    else some ([], c :: cs)

/-- A JSON number lexeme, including the `-Infinity` extension that
`json.loads` accepts by default.  Returns the lexeme and the remainder. -/
def numLexeme (input : List Char) : Option (List Char × List Char) :=
  let sgn : List Char × List Char :=
    match input with
    | '-' :: cs => (['-'], cs)
    | cs => ([], cs)
  match sgn.2 with
  | [] => none
  | c :: cs =>
    if c = 'I' ∧ sgn.1 ≠ [] then
      (eatChars ['n', 'f', 'i', 'n', 'i', 't', 'y'] cs).map
        (fun r => (sgn.1 ++ ['I', 'n', 'f', 'i', 'n', 'i', 't', 'y'], r))
    else if c.isDigit then
      let ip := takeDigits (c :: cs)
      if c = '0' ∧ 1 < ip.1.length then none
      else
        match numFrac ip.2 with
        | none => none
        | some (fr, rest3) =>
          match numExp rest3 with
          | none => none
          | some (ex, rest4) => some (sgn.1 ++ ip.1 ++ fr ++ ex, rest4)
    else none

/-- Elements of a JSON array after the opening bracket (nonempty case),
parameterised by the value recogniser for one nesting level down. -/
def arrElems (pv : List Char → Option (JValue × List Char)) :
    Nat → List Char → Option (List JValue × List Char)
  | 0, _ => none
  | fuel + 1, input =>
    match pv input with
    | none => none
    | some (v, r) =>
      match skipWs r with
      | ',' :: r2 => (arrElems pv fuel r2).map (fun p => (v :: p.1, p.2))
      | ']' :: r2 => some ([v], r2)
      | _ => none

/-- Fields of a JSON object after the opening brace (nonempty case). -/
def objFields (pv : List Char → Option (JValue × List Char)) :
    Nat → List Char → Option (List (String × JValue) × List Char)
  | 0, _ => none
  | fuel + 1, input =>
    match skipWs input with
    | '"' :: cs =>
      match strChars (cs.length + 1) [] cs with
      | none => none
      | some (k, r) =>
        match skipWs r with
        | ':' :: r2 =>
          match pv r2 with
          | none => none
          | some (v, r3) =>
            match skipWs r3 with
            | ',' :: r4 => (objFields pv fuel r4).map (fun p => ((String.mk k, v) :: p.1, p.2))
            | '\x7d' :: r4 => some ([(String.mk k, v)], r4)
            | _ => none
        | _ => none
    | _ => none

/-- One JSON value, by recursive descent with explicit fuel (the fuel is a
termination device only; `jsonParse` supplies more than any input can use).
Models the grammar `json.loads` accepts, including its default `NaN`,
`Infinity` and `-Infinity` extensions. -/
def parseVal : Nat → List Char → Option (JValue × List Char)
  | 0, _ => none
  | fuel + 1, input =>
    match skipWs input with
    | [] => none
    | c :: cs =>
      if c = '\x7b' then
        match skipWs cs with
        | '\x7d' :: r => some (JValue.obj [], r)
        | cs2 => (objFields (parseVal fuel) fuel cs2).map (fun p => (JValue.obj p.1, p.2))
      else if c = '[' then
        match skipWs cs with
        | ']' :: r => some (JValue.arr [], r)
        | cs2 => (arrElems (parseVal fuel) fuel cs2).map (fun p => (JValue.arr p.1, p.2))
      else if c = '"' then
        (strChars (cs.length + 1) [] cs).map (fun p => (JValue.str (String.mk p.1), p.2))
      else if c = 't' then (eatChars ['r', 'u', 'e'] cs).map (fun r => (JValue.bool true, r))
      else if c = 'f' then (eatChars ['a', 'l', 's', 'e'] cs).map (fun r => (JValue.bool false, r))
      else if c = 'n' then (eatChars ['u', 'l', 'l'] cs).map (fun r => (JValue.null, r))
      else if c = 'N' then (eatChars ['a', 'N'] cs).map (fun r => (JValue.num "NaN", r))
      else if c = 'I' then
        (eatChars ['n', 'f', 'i', 'n', 'i', 't', 'y'] cs).map (fun r => (JValue.num "Infinity", r))
      else (numLexeme (c :: cs)).map (fun p => (JValue.num (String.mk p.1), p.2))

/-- Models `json.loads(s)`: `some v` when the whole input (up to surrounding
whitespace) is one JSON document, `none` when `json.loads` raises
`JSONDecodeError`. -/
def jsonParse (s : String) : Option JValue :=
  match parseVal (2 * s.length + 2) s.data with
  | some (v, rest) => if skipWs rest = [] then some v else none
  | none => none

/-- Whether `json.loads` accepts the string. -/
def jsonParses (s : String) : Bool :=
  (jsonParse s).isSome

/-- Lowercase hexadecimal digit, as `json.dumps` writes in escapes. -/
def hexDigit (n : Nat) : Char :=
  if n < 10 then Char.ofNat (48 + n) else Char.ofNat (87 + n)

/-- Escaping of one character by `json.dumps` with its default
`ensure_ascii=True`: characters outside `0x20`-`0x7e` become `\uXXXX`
(code points above `0xffff`, which Python writes as surrogate pairs, are
approximated by a single escape; no verified property serialises them). -/
def escChar (c : Char) : List Char :=
  if c = '"' then ['\\', '"']
  else if c = '\\' then ['\\', '\\']
  else if c = '\n' then ['\\', 'n']
  else if c = '\r' then ['\\', 'r']
  else if c = '\t' then ['\\', 't']
  else if c.toNat = 8 then ['\\', 'b']
  else if c.toNat = 12 then ['\\', 'f']
  else if c.toNat < 32 ∨ 126 < c.toNat then
    ['\\', 'u', hexDigit (c.toNat / 4096 % 16), hexDigit (c.toNat / 256 % 16),
      hexDigit (c.toNat / 16 % 16), hexDigit (c.toNat % 16)]
  else [c]

def escapeChars : List Char → List Char
  | [] => []
  | c :: cs => escChar c ++ escapeChars cs

mutual

/-- Models `json.dumps` with Python's default separators `", "` and `": "`. -/
def dumps : JValue → String
  | JValue.null => "null"
  | JValue.bool true => "true"
  | JValue.bool false => "false"
  | JValue.num lexeme => lexeme
  | JValue.str s => "\"" ++ String.mk (escapeChars s.data) ++ "\""
  | JValue.arr es => "[" ++ dumpsElems es ++ "]"
  | JValue.obj fs => "\x7b" ++ dumpsFields fs ++ "\x7d"

def dumpsElems : List JValue → String
  | [] => ""
  | [v] => dumps v
  | v :: vs => dumps v ++ ", " ++ dumpsElems vs

def dumpsFields : List (String × JValue) → String
  | [] => ""
  | [(k, v)] => "\"" ++ String.mk (escapeChars k.data) ++ "\": " ++ dumps v
  | (k, v) :: fs =>
    "\"" ++ String.mk (escapeChars k.data) ++ "\": " ++ dumps v ++ ", " ++ dumpsFields fs

end

/-- A single-quote character, used by Python's `repr` of strings and by the
f-string messages of the tools. -/
def sq : String := String.mk [Char.ofNat 39]

/-- The tool messages wrap names in single quotes. -/
def quoted (s : String) : String := sq ++ s ++ sq

mutual

/-- Models Python's `repr` on values decoded from JSON (quote escaping inside
`repr` of a string is not reproduced; no verified property needs it). -/
def pyRepr : JValue → String
  | JValue.null => "None"
  | JValue.bool true => "True"
  | JValue.bool false => "False"
  | JValue.num lexeme => lexeme
  | JValue.str s => sq ++ s ++ sq
  | JValue.arr es => "[" ++ pyReprElems es ++ "]"
  | JValue.obj fs => "\x7b" ++ pyReprFields fs ++ "\x7d"

def pyReprElems : List JValue → String
  | [] => ""
  | [v] => pyRepr v
  | v :: vs => pyRepr v ++ ", " ++ pyReprElems vs

def pyReprFields : List (String × JValue) → String
  | [] => ""
  | [(k, v)] => sq ++ k ++ sq ++ ": " ++ pyRepr v
  | (k, v) :: fs => sq ++ k ++ sq ++ ": " ++ pyRepr v ++ ", " ++ pyReprFields fs

end

/-- Models Python's `str` on values decoded from JSON, as an f-string
interpolates them (`str` of a number lexeme is approximated by the lexeme
itself). -/
def pyStr : JValue → String
  | JValue.str s => s
  | v => pyRepr v

/-- `str(x)` where `x` may be `None` (a `dict.get` miss). -/
def pyStrOpt : Option JValue → String
  | none => "None"
  | some v => pyStr v

/-- `str(d.get(k, default))` for a string default, as the tools interpolate
`result.get("message", "Unknown error")`. -/
def pyStrOptD : Option JValue → String → String
  | none, d => d
  | some v, _ => pyStr v

/-- Whether the mantissa of a JSON number lexeme is zero (all its digits
are `0`); such a number is falsy in Python. -/
def mantissaAllZero (lexeme : String) : Bool :=
  (lexeme.data.takeWhile (fun c => !(c == 'e') && !(c == 'E'))).all
    (fun c => c == '0' || c == '-' || c == '+' || c == '.')

/-- Python truthiness of a value decoded from JSON. -/
def truthy : JValue → Bool
  | JValue.null => false
  | JValue.bool b => b
  | JValue.num lexeme => !mantissaAllZero lexeme
  | JValue.str s => !s.isEmpty
  | JValue.arr es => !es.isEmpty
  | JValue.obj fs => !fs.isEmpty

def truthyOpt : Option JValue → Bool
  | none => false
  | some v => truthy v

/-- Key lookup in a decoded JSON object.  Python's `dict` keeps the last of
duplicate keys, so the lookup returns the last binding. -/
def jGet (k : String) : List (String × JValue) → Option JValue
  | [] => none
  | (k2, v) :: rest =>
    match jGet k rest with
    | some v2 => some v2
    | none => if k2 = k then some v else none

/-- Stands for the text of the `AttributeError` CPython raises when `.get` is
called on a decoded non-dict (its exact message is interpreter detail). -/
def attrErrText : String := "AttributeError: no attribute get"

/-- Stands for the text of the `JSONDecodeError` from `json.loads`. -/
def jsonDecodeErrText : String := "Expecting value"

/-- Stands for the text of the `TypeError` from unpacking a non-mapping with
`**params`. -/
def kwargsErrText : String := "argument after must be a mapping"

/-- Stands for the text of the `TypeError` from testing membership of a
non-string in `bpy.data.objects`. -/
def containsErrText : String := "TypeError: expected a string"

/-- Models `d.get(k)` on a decoded JSON value: an `AttributeError` when the
value is not a dict. -/
def pyGet (v : JValue) (k : String) : Except String (Option JValue) :=
  match v with
  | JValue.obj fields => Except.ok (jGet k fields)
  | _ => Except.error attrErrText

/-- Python's `x == "name"` on a value decoded from JSON: true exactly for the
equal string. -/
def isAct : Option JValue → String → Bool
  | some (JValue.str t), s => t == s
  | _, _ => false

/-- Whether the decoded JSON object has the key. -/
def hasKey (k : String) : JValue → Bool
  | JValue.obj fields => (jGet k fields).isSome
  | _ => false

/-! ## The `BlenderConnection` client (`server.py` lines 95-197, and the
byte-identical copy in `simple_server.py` lines 135-237) -/

/-- What one `self.sock.recv(buffer_size)` call yields: a chunk of bytes
(the empty chunk meaning the peer closed the connection) or a
`socket.timeout`. -/
inductive RecvEvent where
  | chunk (data : String)
  | timeout

/-- How a call to `_receive_response` ends. -/
inductive RecvOutcome where
  | ok (data : String)
  | errClosed
  | errTimeout
  | errNoData
  | blocked

/-- `b''.join(chunks)`. -/
def joinChunks (chunks : List String) : String := String.join chunks

/-- The code after the `while` loop of `_receive_response`:
`if chunks: return b''.join(chunks)` / `raise Exception("No data received")`. -/
def afterLoop (chunks : List String) : RecvOutcome :=
  if chunks.isEmpty then RecvOutcome.errNoData else RecvOutcome.ok (joinChunks chunks)

/-- The `while True` loop of `_receive_response` (`server.py` lines 172-193),
driven by the pending receive events; `chunks` is the accumulator list.
`blocked` models running out of supplied events while the loop would call
`recv` again. -/
def receiveLoop : List RecvEvent → List String → RecvOutcome
  | [], _ => RecvOutcome.blocked
  | RecvEvent.chunk s :: rest, chunks =>
    if s.isEmpty then
      if chunks.isEmpty then RecvOutcome.errClosed else afterLoop chunks
    else
      let chunks2 := chunks ++ [s]
      let data := joinChunks chunks2
      if jsonParses data then RecvOutcome.ok data else receiveLoop rest chunks2
  | RecvEvent.timeout :: _, chunks =>
    if chunks.isEmpty then RecvOutcome.errTimeout else afterLoop chunks

/-- `BlenderConnection._receive_response`, starting with an empty chunk
list. -/
def receive_response (events : List RecvEvent) : RecvOutcome :=
  receiveLoop events []

/-- A `BlenderConnection`.  `id` models Python object identity (host and port
play no role in the verified properties); `sock` is `None` or a socket. -/
structure Conn where
  id : Nat
  sock : Option Unit

/-- What `self.sock.sendall(...)` does. -/
inductive WireSend where
  | ok
  | timeout
  | connErr
  | otherErr

/-- The nondeterminism of one modelled exchange: whether a `connect()` attempt
succeeds, what `sendall` does, what `recv` yields, the text of a raised
send-side error, and the `uuid4`/`time.time()` values of the command dict. -/
structure World where
  connectOk : Bool
  wireSend : WireSend
  recvEvents : List RecvEvent
  errText : String
  idStr : String
  ts : String

/-- The Python exception type distinctions `send_command` raises with. -/
inductive ErrKind where
  | connectionError
  | exception

/-- How a call to `send_command` ends. -/
inductive CmdResult where
  | ok (result : JValue)
  | err (kind : ErrKind) (msg : String)
  | hang

/-- A finished `send_command` call: the connection as mutated, the outcome,
how many times `connect()` was invoked, and the messages written to the
socket. -/
structure SendOut where
  conn : Conn
  result : CmdResult
  connectAttempts : Nat
  sent : List JValue

/-- `BlenderConnection.connect` (`server.py` lines 102-116): no-op when a
socket exists; otherwise a fresh socket on success, and `sock = None` with
`False` on failure. -/
def connect (c : Conn) (w : World) : Conn × Bool :=
  match c.sock with
  | some _ => (c, true)
  | none =>
    if w.connectOk then ({ c with sock := some () }, true)
    else ({ c with sock := none }, false)

/-- `BlenderConnection.disconnect` (`server.py` lines 118-126). -/
def disconnect (c : Conn) : Conn := { c with sock := none }

/-- The command dict built by `send_command` (`server.py` lines 133-138):
keys `type`, `params`, `id`, `timestamp` — and no `action` key. -/
def sentCommand (commandType : String) (params : JValue) (idStr ts : String) : JValue :=
  JValue.obj [("type", JValue.str commandType), ("params", params),
    ("id", JValue.str idStr), ("timestamp", JValue.num ts)]

/-- `params or {}` of `send_command`. -/
def paramsOrEmpty : Option JValue → JValue
  | none => JValue.obj []
  | some p => if truthy p then p else JValue.obj []

/-- The `try` block of `send_command` together with its three `except`
clauses (`server.py` lines 140-165), entered with a socket present.  Every
raising path sets `self.sock = None` first; an error-status response raises
inside the `try` and is caught by the generic `except Exception`, which
re-raises `Communication error with Blender: ...`. -/
def send_command_body (c : Conn) (w : World) (commandType : String)
    (params : Option JValue) (attempts : Nat) : SendOut :=
  let message := sentCommand commandType (paramsOrEmpty params) w.idStr w.ts
  match w.wireSend with
  | WireSend.timeout =>
    { conn := { c with sock := none },
      result := CmdResult.err ErrKind.exception "Timeout waiting for Blender response",
      connectAttempts := attempts, sent := [message] }
  | WireSend.connErr =>
    { conn := { c with sock := none },
      result := CmdResult.err ErrKind.exception ("Connection to Blender lost: " ++ w.errText),
      connectAttempts := attempts, sent := [message] }
  | WireSend.otherErr =>
    { conn := { c with sock := none },
      result := CmdResult.err ErrKind.exception ("Communication error with Blender: " ++ w.errText),
      connectAttempts := attempts, sent := [message] }
  | WireSend.ok =>
    match receiveLoop w.recvEvents [] with
    | RecvOutcome.blocked =>
      { conn := c, result := CmdResult.hang, connectAttempts := attempts, sent := [message] }
    | RecvOutcome.errTimeout =>
      { conn := { c with sock := none },
        result := CmdResult.err ErrKind.exception "Timeout waiting for Blender response",
        connectAttempts := attempts, sent := [message] }
    | RecvOutcome.errClosed =>
      { conn := { c with sock := none },
        result := CmdResult.err ErrKind.exception
          "Communication error with Blender: Connection closed before receiving data",
        connectAttempts := attempts, sent := [message] }
    | RecvOutcome.errNoData =>
      { conn := { c with sock := none },
        result := CmdResult.err ErrKind.exception
          "Communication error with Blender: No data received",
        connectAttempts := attempts, sent := [message] }
    | RecvOutcome.ok data =>
      match jsonParse data with
      | none =>
        { conn := { c with sock := none },
          result := CmdResult.err ErrKind.exception
            ("Communication error with Blender: " ++ jsonDecodeErrText),
          connectAttempts := attempts, sent := [message] }
      | some response =>
        match response with
        | JValue.obj fields =>
          if isAct (jGet "status" fields) "error" then
            { conn := { c with sock := none },
              result := CmdResult.err ErrKind.exception
                ("Communication error with Blender: " ++
                  pyStrOptD (jGet "message" fields) "Unknown error from Blender"),
              connectAttempts := attempts, sent := [message] }
          else
            { conn := c,
              result := CmdResult.ok ((jGet "result" fields).getD (JValue.obj [])),
              connectAttempts := attempts, sent := [message] }
        | _ =>
          { conn := { c with sock := none },
            result := CmdResult.err ErrKind.exception
              ("Communication error with Blender: " ++ attrErrText),
            connectAttempts := attempts, sent := [message] }

/-- `BlenderConnection.send_command` (`server.py` lines 128-165):
`if not self.sock and not self.connect(): raise ConnectionError(...)`,
then the send/receive exchange. -/
def send_command (c : Conn) (w : World) (commandType : String)
    (params : Option JValue) : SendOut :=
  match c.sock with
  | some _ => send_command_body c w commandType params 0
  | none =>
    let r := connect c w
    if r.2 then send_command_body r.1 w commandType params 1
    else
      { conn := r.1,
        result := CmdResult.err ErrKind.connectionError "Not connected to Blender",
        connectAttempts := 1, sent := [] }

/-- How a call to `get_blender_connection` ends. -/
inductive GetResult where
  | ok (c : Conn)
  | err (msg : String)
  | hang

/-- A finished `get_blender_connection` call: the global `_blender_connection`
afterwards, the outcome, whether a new `BlenderConnection` was constructed,
and whether the stale connection was disconnected. -/
structure GetOut where
  global : Option Conn
  result : GetResult
  createdNew : Bool
  disconnectedOld : Bool

/-- The `# Create new connection` block of `get_blender_connection`
(`server.py` lines 220-230): construct, `connect()`, raise on failure.  The
global keeps the new object even when its `connect()` failed. -/
def create_new_connection (newId : Nat) (w : World) (dOld : Bool) : GetOut :=
  let c : Conn := { id := newId, sock := none }
  let r := connect c w
  if r.2 then
    { global := some r.1, result := GetResult.ok r.1, createdNew := true, disconnectedOld := dOld }
  else
    { global := some r.1,
      result := GetResult.err
        "Could not connect to Blender. Make sure the Blender addon is running.",
      createdNew := true, disconnectedOld := dOld }

/-- `get_blender_connection` (`server.py` lines 202-230): ping an existing
global connection, keep it on success; on a ping failure disconnect it, drop
it and build a fresh one.  `newId` is the identity of the object a
constructor call would create. -/
def get_blender_connection (g : Option Conn) (newId : Nat) (w : World) : GetOut :=
  match g with
  | none => create_new_connection newId w false
  | some c =>
    let s := send_command c w "ping" none
    match s.result with
    | CmdResult.ok _ =>
      { global := some s.conn, result := GetResult.ok s.conn,
        createdNew := false, disconnectedOld := false }
    | CmdResult.hang =>
      { global := some s.conn, result := GetResult.hang,
        createdNew := false, disconnectedOld := false }
    | CmdResult.err _ _ =>
      let _ := disconnect s.conn
      create_new_connection newId w true

/-! ## The addon's command dispatcher (`blender_addon/__init__.py`) -/

/-- One call into the host application's API (`bpy`), as `execute_command`
makes them. -/
inductive HostCall where
  | cubeAdd (params : JValue)
  | sphereAdd (params : JValue)
  | cylinderAdd (params : JValue)
  | objectRemove (name : String)
  | setLocation (name : String) (location : JValue)
  | render
  | saveMainfile (filepath : JValue)
  | evalCode (code : JValue)

/-- The host application's side of a dispatch: which object names exist in
`bpy.data.objects`, whether each API call raises, and what `eval` yields
(already as the `str(result)` text). -/
structure HostEnv where
  objects : List String
  opResult : HostCall → Except String Unit
  evalResult : JValue → Except String String

def successMsg (m : String) : JValue :=
  JValue.obj [("success", JValue.bool true), ("message", JValue.str m)]

def errorDict (e : String) : JValue :=
  JValue.obj [("success", JValue.bool false), ("error", JValue.str e)]

/-- An `add_cube` / `add_sphere` / `add_cylinder` branch
(`__init__.py` lines 200-210): `bpy.ops.mesh.primitive_*_add(**params)`;
unpacking a non-mapping raises before the call is made. -/
def primitive_add (env : HostEnv) (call : HostCall) (msg : String)
    (params : JValue) : Except String JValue × List HostCall :=
  match params with
  | JValue.obj _ =>
    (match env.opResult call with
     | Except.ok _ => (Except.ok (successMsg msg), [call])
     | Except.error e => (Except.error e, [call]))
  | _ => (Except.error kwargsErrText, [])

/-- The `delete_object` branch (`__init__.py` lines 212-217):
`if obj_name and obj_name in bpy.data.objects`. -/
def delete_object_branch (env : HostEnv) (params : JValue) :
    Except String JValue × List HostCall :=
  match params with
  | JValue.obj ps =>
    (match jGet "name" ps with
     | some (JValue.str s) =>
       if s ≠ "" ∧ s ∈ env.objects then
         (match env.opResult (HostCall.objectRemove s) with
          | Except.ok _ =>
            (Except.ok (successMsg ("Object " ++ quoted s ++ " deleted")),
              [HostCall.objectRemove s])
          | Except.error e => (Except.error e, [HostCall.objectRemove s]))
       else (Except.ok (errorDict "Object not found"), [])
     | some v =>
       if truthy v then (Except.error containsErrText, [])
       else (Except.ok (errorDict "Object not found"), [])
     | none => (Except.ok (errorDict "Object not found"), []))
  | _ => (Except.error attrErrText, [])

/-- The `move_object` branch (`__init__.py` lines 219-225). -/
def move_object_branch (env : HostEnv) (params : JValue) :
    Except String JValue × List HostCall :=
  match params with
  | JValue.obj ps =>
    let location := (jGet "location" ps).getD
      (JValue.arr [JValue.num "0", JValue.num "0", JValue.num "0"])
    (match jGet "name" ps with
     | some (JValue.str s) =>
       if s ≠ "" ∧ s ∈ env.objects then
         (match env.opResult (HostCall.setLocation s location) with
          | Except.ok _ =>
            (Except.ok (successMsg ("Object " ++ quoted s ++ " moved")),
              [HostCall.setLocation s location])
          | Except.error e => (Except.error e, [HostCall.setLocation s location]))
       else (Except.ok (errorDict "Object not found"), [])
     | some v =>
       if truthy v then (Except.error containsErrText, [])
       else (Except.ok (errorDict "Object not found"), [])
     | none => (Except.ok (errorDict "Object not found"), []))
  | _ => (Except.error attrErrText, [])

/-- The `render` branch (`__init__.py` lines 227-229). -/
def render_branch (env : HostEnv) : Except String JValue × List HostCall :=
  match env.opResult HostCall.render with
  | Except.ok _ => (Except.ok (successMsg "Render complete"), [HostCall.render])
  | Except.error e => (Except.error e, [HostCall.render])

/-- The `save_file` branch (`__init__.py` lines 231-234). -/
def save_file_branch (env : HostEnv) (params : JValue) :
    Except String JValue × List HostCall :=
  match params with
  | JValue.obj ps =>
    let filepath := (jGet "filepath" ps).getD JValue.null
    (match env.opResult (HostCall.saveMainfile filepath) with
     | Except.ok _ =>
       (Except.ok (successMsg ("File saved to " ++ pyStr filepath)),
         [HostCall.saveMainfile filepath])
     | Except.error e => (Except.error e, [HostCall.saveMainfile filepath]))
  | _ => (Except.error attrErrText, [])

/-- The `eval` branch (`__init__.py` lines 236-240). -/
def eval_branch (env : HostEnv) (params : JValue) :
    Except String JValue × List HostCall :=
  match params with
  | JValue.obj ps =>
    let code := (jGet "code" ps).getD JValue.null
    (match env.evalResult code with
     | Except.ok r =>
       (Except.ok (JValue.obj [("success", JValue.bool true), ("result", JValue.str r)]),
         [HostCall.evalCode code])
     | Except.error e => (Except.error e, [HostCall.evalCode code]))
  | _ => (Except.error attrErrText, [])

/-- The dispatch chain of `execute_command` over a decoded dict:
`action = command.get('action')`, `params = command.get('params', {})`,
then one `elif` per action name and the `Unknown action` fallback
(`__init__.py` lines 196-243). -/
def executeFields (env : HostEnv) (fields : List (String × JValue)) :
    Except String JValue × List HostCall :=
  let action := jGet "action" fields
  let params := (jGet "params" fields).getD (JValue.obj [])
  if isAct action "add_cube" then primitive_add env (HostCall.cubeAdd params) "Cube added" params
  else if isAct action "add_sphere" then
    primitive_add env (HostCall.sphereAdd params) "Sphere added" params
  else if isAct action "add_cylinder" then
    primitive_add env (HostCall.cylinderAdd params) "Cylinder added" params
  else if isAct action "delete_object" then delete_object_branch env params
  else if isAct action "move_object" then move_object_branch env params
  else if isAct action "render" then render_branch env
  else if isAct action "save_file" then save_file_branch env params
  else if isAct action "eval" then eval_branch env params
  else (Except.ok (errorDict ("Unknown action: " ++ pyStrOpt action)), [])

/-- The `try` block of `execute_command`: a thrown `Except.error` is what the
outer `except Exception` will catch.  `command.get` on a decoded non-dict
raises `AttributeError`. -/
def executeBody (env : HostEnv) (command : JValue) :
    Except String JValue × List HostCall :=
  match command with
  | JValue.obj fields => executeFields env fields
  | _ => (Except.error attrErrText, [])

/-- `execute_command` (`__init__.py` lines 193-246): the `try` body with its
`except Exception` clause turning any raise into
`{"success": False, "error": str(e)}`.  The second component records the host
API calls made. -/
def execute_command (env : HostEnv) (command : JValue) : JValue × List HostCall :=
  match executeBody env command with
  | (Except.ok v, calls) => (v, calls)
  | (Except.error e, calls) => (errorDict e, calls)

/-- How a modelled tool call ends. -/
inductive ToolRes where
  | msg (s : String)
  | hang

structure ToolOut where
  global : Option Conn
  result : ToolRes
  gotConnection : Bool
  sends : List (String × Option JValue)

/-- `delete_scene` (`server.py` lines 361-386). -/
def delete_scene (g : Option Conn) (newId : Nat) (wP wS : World)
    (scene_name : String) (confirm : Bool) : ToolOut :=
  if !confirm then
    { global := g, result := ToolRes.msg "Scene deletion requires confirmation=True parameter",
      gotConnection := false, sends := [] }
  else
    let gout := get_blender_connection g newId wP
    match gout.result with
    | GetResult.hang =>
      { global := gout.global, result := ToolRes.hang, gotConnection := true, sends := [] }
    | GetResult.err e =>
      { global := gout.global, result := ToolRes.msg ("Failed to delete scene: " ++ e),
        gotConnection := true, sends := [] }
    | GetResult.ok c =>
      let payload := some (JValue.obj [("scene_name", JValue.str scene_name)])
      let s := send_command c wS "delete_scene" payload
      match s.result with
      | CmdResult.hang =>
        { global := some s.conn, result := ToolRes.hang, gotConnection := true,
          sends := [("delete_scene", payload)] }
      | CmdResult.err _ e =>
        { global := some s.conn, result := ToolRes.msg ("Failed to delete scene: " ++ e),
          gotConnection := true, sends := [("delete_scene", payload)] }
      | CmdResult.ok result =>
        match result with
        | JValue.obj fields =>
          if truthyOpt (jGet "success" fields) then
            { global := some s.conn,
              result := ToolRes.msg ("Scene " ++ quoted scene_name ++ " deleted successfully"),
              gotConnection := true, sends := [("delete_scene", payload)] }
          else
            { global := some s.conn,
              result := ToolRes.msg ("Failed to delete scene: " ++
                pyStrOptD (jGet "message" fields) "Unknown error"),
              gotConnection := true, sends := [("delete_scene", payload)] }
        | _ =>
          { global := some s.conn, result := ToolRes.msg ("Failed to delete scene: " ++ attrErrText),
            gotConnection := true, sends := [("delete_scene", payload)] }

/-- `clear_scene` (`server.py` lines 429-451). -/
def clear_scene (g : Option Conn) (newId : Nat) (wP wS : World) (confirm : Bool) : ToolOut :=
  if !confirm then
    { global := g, result := ToolRes.msg "Scene clearing requires confirmation=True parameter",
      gotConnection := false, sends := [] }
  else
    let gout := get_blender_connection g newId wP
    match gout.result with
    | GetResult.hang =>
      { global := gout.global, result := ToolRes.hang, gotConnection := true, sends := [] }
    | GetResult.err e =>
      { global := gout.global, result := ToolRes.msg ("Failed to clear scene: " ++ e),
        gotConnection := true, sends := [] }
    | GetResult.ok c =>
      let s := send_command c wS "clear_scene" none
      match s.result with
      | CmdResult.hang =>
        { global := some s.conn, result := ToolRes.hang, gotConnection := true,
          sends := [("clear_scene", none)] }
      | CmdResult.err _ e =>
        { global := some s.conn, result := ToolRes.msg ("Failed to clear scene: " ++ e),
          gotConnection := true, sends := [("clear_scene", none)] }
      | CmdResult.ok result =>
        match result with
        | JValue.obj fields =>
          if truthyOpt (jGet "success" fields) then
            { global := some s.conn,
              result := ToolRes.msg ("Scene cleared successfully. " ++
                pyStrOptD (jGet "deleted_count" fields) "0" ++ " objects removed"),
              gotConnection := true, sends := [("clear_scene", none)] }
          else
            { global := some s.conn,
              result := ToolRes.msg ("Failed to clear scene: " ++
                pyStrOptD (jGet "message" fields) "Unknown error"),
              gotConnection := true, sends := [("clear_scene", none)] }
        | _ =>
          { global := some s.conn, result := ToolRes.msg ("Failed to clear scene: " ++ attrErrText),
            gotConnection := true, sends := [("clear_scene", none)] }

/-- `delete_object` tool (`server.py` lines 518-543). -/
def delete_object (g : Option Conn) (newId : Nat) (wP wS : World)
    (object_name : String) (confirm : Bool) : ToolOut :=
  if !confirm then
    { global := g, result := ToolRes.msg "Object deletion requires confirmation=True parameter",
      gotConnection := false, sends := [] }
  else
    let gout := get_blender_connection g newId wP
    match gout.result with
    | GetResult.hang =>
      { global := gout.global, result := ToolRes.hang, gotConnection := true, sends := [] }
    | GetResult.err e =>
      { global := gout.global, result := ToolRes.msg ("Failed to delete object: " ++ e),
        gotConnection := true, sends := [] }
    | GetResult.ok c =>
      let payload := some (JValue.obj [("object_name", JValue.str object_name)])
      let s := send_command c wS "delete_object" payload
      match s.result with
      | CmdResult.hang =>
        { global := some s.conn, result := ToolRes.hang, gotConnection := true,
          sends := [("delete_object", payload)] }
      | CmdResult.err _ e =>
        { global := some s.conn, result := ToolRes.msg ("Failed to delete object: " ++ e),
          gotConnection := true, sends := [("delete_object", payload)] }
      | CmdResult.ok result =>
        match result with
        | JValue.obj fields =>
          if truthyOpt (jGet "success" fields) then
            { global := some s.conn,
              result := ToolRes.msg ("Object " ++ quoted object_name ++ " deleted successfully"),
              gotConnection := true, sends := [("delete_object", payload)] }
          else
            { global := some s.conn,
              result := ToolRes.msg ("Failed to delete object: " ++
                pyStrOptD (jGet "message" fields) "Unknown error"),
              gotConnection := true, sends := [("delete_object", payload)] }
        | _ =>
          { global := some s.conn,
            result := ToolRes.msg ("Failed to delete object: " ++ attrErrText),
            gotConnection := true, sends := [("delete_object", payload)] }

/-- `delete_material` (`server.py` lines 790-815). -/
def delete_material (g : Option Conn) (newId : Nat) (wP wS : World)
    (material_name : String) (confirm : Bool) : ToolOut :=
  if !confirm then
    { global := g, result := ToolRes.msg "Material deletion requires confirmation=True parameter",
      gotConnection := false, sends := [] }
  else
    let gout := get_blender_connection g newId wP
    match gout.result with
    | GetResult.hang =>
      { global := gout.global, result := ToolRes.hang, gotConnection := true, sends := [] }
    | GetResult.err e =>
      { global := gout.global, result := ToolRes.msg ("Failed to delete material: " ++ e),
        gotConnection := true, sends := [] }
    | GetResult.ok c =>
      let payload := some (JValue.obj [("material_name", JValue.str material_name)])
      let s := send_command c wS "delete_material" payload
      match s.result with
      | CmdResult.hang =>
        { global := some s.conn, result := ToolRes.hang, gotConnection := true,
          sends := [("delete_material", payload)] }
      | CmdResult.err _ e =>
        { global := some s.conn, result := ToolRes.msg ("Failed to delete material: " ++ e),
          gotConnection := true, sends := [("delete_material", payload)] }
      | CmdResult.ok result =>
        match result with
        | JValue.obj fields =>
          if truthyOpt (jGet "success" fields) then
            { global := some s.conn,
              result := ToolRes.msg
                ("Material " ++ quoted material_name ++ " deleted successfully"),
              gotConnection := true, sends := [("delete_material", payload)] }
          else
            { global := some s.conn,
              result := ToolRes.msg ("Failed to delete material: " ++
                pyStrOptD (jGet "message" fields) "Unknown error"),
              gotConnection := true, sends := [("delete_material", payload)] }
        | _ =>
          { global := some s.conn,
            result := ToolRes.msg ("Failed to delete material: " ++ attrErrText),
            gotConnection := true, sends := [("delete_material", payload)] }

/-- `remove_modifier` (`server.py` lines 982-1009). -/
def remove_modifier (g : Option Conn) (newId : Nat) (wP wS : World)
    (object_name modifier_name : String) (confirm : Bool) : ToolOut :=
  if !confirm then
    { global := g, result := ToolRes.msg "Modifier removal requires confirmation=True parameter",
      gotConnection := false, sends := [] }
  else
    let gout := get_blender_connection g newId wP
    match gout.result with
    | GetResult.hang =>
      { global := gout.global, result := ToolRes.hang, gotConnection := true, sends := [] }
    | GetResult.err e =>
      { global := gout.global, result := ToolRes.msg ("Failed to remove modifier: " ++ e),
        gotConnection := true, sends := [] }
    | GetResult.ok c =>
      let payload := some (JValue.obj [("object_name", JValue.str object_name),
        ("modifier_name", JValue.str modifier_name)])
      let s := send_command c wS "remove_modifier" payload
      match s.result with
      | CmdResult.hang =>
        { global := some s.conn, result := ToolRes.hang, gotConnection := true,
          sends := [("remove_modifier", payload)] }
      | CmdResult.err _ e =>
        { global := some s.conn, result := ToolRes.msg ("Failed to remove modifier: " ++ e),
          gotConnection := true, sends := [("remove_modifier", payload)] }
      | CmdResult.ok result =>
        match result with
        | JValue.obj fields =>
          if truthyOpt (jGet "success" fields) then
            { global := some s.conn,
              result := ToolRes.msg ("Modifier " ++ quoted modifier_name ++
                " removed from " ++ quoted object_name),
              gotConnection := true, sends := [("remove_modifier", payload)] }
          else
            { global := some s.conn,
              result := ToolRes.msg ("Failed to remove modifier: " ++
                pyStrOptD (jGet "message" fields) "Unknown error"),
              gotConnection := true, sends := [("remove_modifier", payload)] }
        | _ =>
          { global := some s.conn,
            result := ToolRes.msg ("Failed to remove modifier: " ++ attrErrText),
            gotConnection := true, sends := [("remove_modifier", payload)] }

/-- `clear_animation` (`server.py` lines 1170-1196). -/
def clear_animation (g : Option Conn) (newId : Nat) (wP wS : World)
    (object_name : String) (confirm : Bool) : ToolOut :=
  if !confirm then
    { global := g, result := ToolRes.msg "Animation clearing requires confirmation=True parameter",
      gotConnection := false, sends := [] }
  else
    let gout := get_blender_connection g newId wP
    match gout.result with
    | GetResult.hang =>
      { global := gout.global, result := ToolRes.hang, gotConnection := true, sends := [] }
    | GetResult.err e =>
      { global := gout.global, result := ToolRes.msg ("Failed to clear animation: " ++ e),
        gotConnection := true, sends := [] }
    | GetResult.ok c =>
      let payload := some (JValue.obj [("object_name", JValue.str object_name)])
      let s := send_command c wS "clear_animation" payload
      match s.result with
      | CmdResult.hang =>
        { global := some s.conn, result := ToolRes.hang, gotConnection := true,
          sends := [("clear_animation", payload)] }
      | CmdResult.err _ e =>
        { global := some s.conn, result := ToolRes.msg ("Failed to clear animation: " ++ e),
          gotConnection := true, sends := [("clear_animation", payload)] }
      | CmdResult.ok result =>
        match result with
        | JValue.obj fields =>
          if truthyOpt (jGet "success" fields) then
            { global := some s.conn,
              result := ToolRes.msg ("Animation cleared from " ++ quoted object_name),
              gotConnection := true, sends := [("clear_animation", payload)] }
          else
            { global := some s.conn,
              result := ToolRes.msg ("Failed to clear animation: " ++
                pyStrOptD (jGet "message" fields) "Unknown error"),
              gotConnection := true, sends := [("clear_animation", payload)] }
        | _ =>
          { global := some s.conn,
            result := ToolRes.msg ("Failed to clear animation: " ++ attrErrText),
            gotConnection := true, sends := [("clear_animation", payload)] }

/-- `load_scene` (`server.py` lines 1443-1472); `fileExists` models
`os.path.exists`. -/
def load_scene (g : Option Conn) (newId : Nat) (wP wS : World)
    (fileExists : String → Bool) (file_path : String) (confirm : Bool) : ToolOut :=
  if !confirm then
    { global := g, result := ToolRes.msg "Scene loading requires confirmation=True parameter",
      gotConnection := false, sends := [] }
  else if !fileExists file_path then
    { global := g, result := ToolRes.msg ("File not found: " ++ file_path),
      gotConnection := false, sends := [] }
  else
    let gout := get_blender_connection g newId wP
    match gout.result with
    | GetResult.hang =>
      { global := gout.global, result := ToolRes.hang, gotConnection := true, sends := [] }
    | GetResult.err e =>
      { global := gout.global, result := ToolRes.msg ("Failed to load scene: " ++ e),
        gotConnection := true, sends := [] }
    | GetResult.ok c =>
      let payload := some (JValue.obj [("file_path", JValue.str file_path)])
      let s := send_command c wS "load_scene" payload
      match s.result with
      | CmdResult.hang =>
        { global := some s.conn, result := ToolRes.hang, gotConnection := true,
          sends := [("load_scene", payload)] }
      | CmdResult.err _ e =>
        { global := some s.conn, result := ToolRes.msg ("Failed to load scene: " ++ e),
          gotConnection := true, sends := [("load_scene", payload)] }
      | CmdResult.ok result =>
        match result with
        | JValue.obj fields =>
          if truthyOpt (jGet "success" fields) then
            { global := some s.conn,
              result := ToolRes.msg ("Scene loaded successfully from " ++ file_path),
              gotConnection := true, sends := [("load_scene", payload)] }
          else
            { global := some s.conn,
              result := ToolRes.msg ("Failed to load scene: " ++
                pyStrOptD (jGet "message" fields) "Unknown error"),
              gotConnection := true, sends := [("load_scene", payload)] }
        | _ =>
          { global := some s.conn,
            result := ToolRes.msg ("Failed to load scene: " ++ attrErrText),
            gotConnection := true, sends := [("load_scene", payload)] }

/-! ## Concrete instances used by witnesses and counterexamples -/

/-- A host side with no objects where every API call succeeds. -/
def envNoOps : HostEnv :=
  { objects := [], opResult := fun _ => Except.ok (), evalResult := fun _ => Except.ok "" }

/-- A world whose exchange succeeds with the empty-object response. -/
def wPingOk : World :=
  { connectOk := true, wireSend := WireSend.ok, recvEvents := [RecvEvent.chunk "\x7b\x7d"],
    errText := "", idStr := "id", ts := "0" }

/-- A world whose `sendall` raises `socket.timeout`. -/
def wTimeout : World :=
  { wPingOk with wireSend := WireSend.timeout }

/-- A world where `connect()` fails. -/
def wNoConnect : World :=
  { wPingOk with connectOk := false }

/-- A receive event that delivers data: a nonempty chunk (no connection
close, no timeout). -/
def isDataChunk : RecvEvent → Bool
  | RecvEvent.chunk s => !s.isEmpty
  | RecvEvent.timeout => false

/-- Whether a receive outcome is the trailing `No data received` error of
`_receive_response`. -/
def isNoData : RecvOutcome → Bool
  | RecvOutcome.errNoData => true
  | _ => false

/-- The eight action names `execute_command` recognises. -/
def recognizedActions : List String :=
  ["add_cube", "add_sphere", "add_cylinder", "delete_object", "move_object",
    "render", "save_file", "eval"]

/-- Whether the dispatch falls through to the `Unknown action` branch. -/
def isUnknownAction (a : Option JValue) : Bool :=
  !(recognizedActions.any (fun s => isAct a s))

end BlenderMcp

namespace BlenderMcp

/-! ## Helper lemmas -/

theorem send_body_attempts (c : Conn) (w : World) (t : String) (p : Option JValue) (a : Nat) :
    (send_command_body c w t p a).connectAttempts = a := by
  dsimp only [send_command_body]
  repeat' split
  all_goals rfl

theorem send_body_conn_id (c : Conn) (w : World) (t : String) (p : Option JValue) (a : Nat) :
    (send_command_body c w t p a).conn.id = c.id := by
  dsimp only [send_command_body]
  repeat' split
  all_goals rfl

theorem send_body_err_sock (c : Conn) (w : World) (t : String) (p : Option JValue) (a : Nat) :
    ∀ k m, (send_command_body c w t p a).result = CmdResult.err k m →
      (send_command_body c w t p a).conn.sock = none := by
  dsimp only [send_command_body]
  repeat' split
  all_goals intro k m h
  all_goals first
  | rfl
  | simp at h

theorem send_command_conn_id (c : Conn) (w : World) (t : String) (p : Option JValue) :
    (send_command c w t p).conn.id = c.id := by
  unfold send_command
  cases hc : c.sock
  case some u => exact send_body_conn_id c w t p 0
  case none =>
    by_cases hok : (connect c w).2 = true
    · simp only [hok, if_true]
      have := send_body_conn_id (connect c w).1 w t p 1
      rw [this]
      unfold connect
      rw [hc]
      by_cases hw : w.connectOk = true
      · simp [hw]
      · simp [hw]
    · simp only [hok, if_false]
      unfold connect
      rw [hc]
      by_cases hw : w.connectOk = true
      · simp [hw]
      · simp [hw]

theorem send_command_attempts_of_none (c : Conn) (w : World) (t : String)
    (p : Option JValue) (h : c.sock = none) :
    (send_command c w t p).connectAttempts = 1 := by
  unfold send_command
  rw [h]
  by_cases hok : (connect c w).2 = true
  · rw [if_pos hok]
    exact send_body_attempts (connect c w).1 w t p 1
  · rw [if_neg hok]

theorem connect_fail_sock (c : Conn) (w : World) (h : c.sock = none)
    (hf : ¬(connect c w).2 = true) : (connect c w).1.sock = none := by
  by_cases hw : w.connectOk = true
  · exfalso
    apply hf
    simp [connect, h, hw]
  · simp [connect, h, hw]

theorem send_body_sent (c : Conn) (w : World) (t : String) (p : Option JValue) (a : Nat) :
    (send_command_body c w t p a).sent = [sentCommand t (paramsOrEmpty p) w.idStr w.ts] := by
  dsimp only [send_command_body]
  repeat' split
  all_goals rfl

/-- Invariant form of the C1 framing property: if every pending receive event
is a nonempty data chunk and the data accumulated so far does not yet parse,
then any string the loop returns parses as JSON. -/
theorem receiveLoop_all_chunks_parse (events : List RecvEvent) :
    ∀ chunks, events.all isDataChunk = true →
      jsonParses (joinChunks chunks) = false →
      ∀ d, receiveLoop events chunks = RecvOutcome.ok d → jsonParses d = true := by
  induction events with
  | nil =>
    intro chunks _ _ d h
    exact absurd h (by simp [receiveLoop])
  | cons e rest ih =>
    intro chunks hall hacc d hret
    cases e with
    | timeout => simp [List.all_cons, isDataChunk] at hall
    | chunk s =>
      simp only [List.all_cons, Bool.and_eq_true, isDataChunk] at hall
      have hs : s.isEmpty = false := by
        cases hse : s.isEmpty
        · rfl
        · rw [hse] at hall; exact absurd hall.1 (by simp)
      simp only [receiveLoop, hs] at hret
      by_cases hp : jsonParses (joinChunks (chunks ++ [s])) = true
      · simp only [hp, if_true] at hret
        cases hret
        exact hp
      · have hp2 : jsonParses (joinChunks (chunks ++ [s])) = false := by
          cases hje : jsonParses (joinChunks (chunks ++ [s]))
          · rfl
          · exact absurd hje hp
        simp only [hp2, Bool.false_eq_true, if_false] at hret
        exact ih (chunks ++ [s]) hall.2 hp2 d hret

/-! ## The claims -/

/-- C8 (confirmed): in `_receive_response` of `server.py` (and of the
identical `simple_server.py`), the trailing `raise Exception("No data
received")` branch is unreachable: the receive loop, started from any
accumulator state and driven by any sequence of receive events, never ends in
that branch — both `break` sites are guarded by a nonempty chunk list, so the
code after the loop always returns the joined bytes. -/
theorem receive_response_no_data_unreachable (events : List RecvEvent) (chunks : List String) :
    isNoData (receiveLoop events chunks) = false := by
  induction events generalizing chunks with
  | nil => rfl
  | cons e rest ih =>
    cases e with
    | timeout =>
      simp only [receiveLoop]
      by_cases hc : chunks.isEmpty
      · simp [hc, isNoData]
      · simp [hc, afterLoop, isNoData]
    | chunk s =>
      simp only [receiveLoop]
      by_cases hs : s.isEmpty
      · by_cases hc : chunks.isEmpty
        · simp [hs, hc, isNoData]
        · simp [hs, hc, afterLoop, isNoData]
      · by_cases hp : jsonParses (joinChunks (chunks ++ [s]))
        · simp [hs, hp, isNoData]
        · simp [hs, hp, ih]

/-- C1 counterexample: a concrete exchange on which `_receive_response`
returns a byte string that does not parse as JSON — the peer sends the single
byte `{` and then closes the connection, and the loop breaks out and returns
the accumulated `{`. -/
theorem receive_response_unparsed_return :
    receive_response [RecvEvent.chunk "\x7b", RecvEvent.chunk ""] = RecvOutcome.ok "\x7b" ∧
    jsonParses "\x7b" = false :=
  ⟨rfl, rfl⟩

/-- C1 (corrected): `_receive_response` accumulates received chunks until
their concatenation parses as a JSON document, and — provided every receive
yields a nonempty data chunk, i.e. the loop never observes a connection close
or a timeout — the byte string it returns parses as a complete JSON document.
(When the connection closes or a `socket.timeout` fires after partial data,
the accumulated bytes are returned unchecked; see the counterexample.) -/
theorem receive_response_parse_framing (events : List RecvEvent)
    (hall : events.all isDataChunk = true) (d : String)
    (hret : receive_response events = RecvOutcome.ok d) :
    jsonParses d = true :=
  receiveLoop_all_chunks_parse events [] hall rfl d hret

/-- C1 witness: on the one-chunk exchange delivering `{}` the theorem applies
and the returned document indeed parses. -/
theorem receive_response_parse_framing_witness : jsonParses "\x7b\x7d" = true :=
  receive_response_parse_framing [RecvEvent.chunk "\x7b\x7d"] rfl "\x7b\x7d" rfl

/-- C2 (confirmed): whenever `send_command` ends in a raised exception — a
`socket.timeout`, a connection loss, a `sendall` failure, unparseable response
bytes, a non-dict response, or an error-status response from Blender — the
connection's `sock` field is `None` when the exception propagates, and the
next `send_command` call on that connection starts disconnected and makes
exactly one fresh `connect()` attempt. -/
theorem send_command_error_drops_socket (c : Conn) (w w2 : World) (t t2 : String)
    (p p2 : Option JValue) (k : ErrKind) (m : String)
    (h : (send_command c w t p).result = CmdResult.err k m) :
    (send_command c w t p).conn.sock = none ∧
    (send_command (send_command c w t p).conn w2 t2 p2).connectAttempts = 1 := by
  have hsock : (send_command c w t p).conn.sock = none := by
    unfold send_command at h ⊢
    cases hc : c.sock with
    | some u =>
      rw [hc] at h
      exact send_body_err_sock c w t p 0 k m h
    | none =>
      rw [hc] at h
      dsimp only at h ⊢
      by_cases hok : (connect c w).2 = true
      · rw [if_pos hok] at h ⊢
        exact send_body_err_sock (connect c w).1 w t p 1 k m h
      · rw [if_neg hok]
        exact connect_fail_sock c w hc hok
  exact ⟨hsock, send_command_attempts_of_none _ w2 t2 p2 hsock⟩

/-- C2 witness: a `sendall` timeout on a connected socket; the socket is
dropped and the next call reconnects once. -/
theorem send_command_error_drops_socket_witness :
    (send_command { id := 1, sock := some () } wTimeout "ping" none).conn.sock = none ∧
    (send_command (send_command { id := 1, sock := some () } wTimeout "ping" none).conn
      wTimeout "ping" none).connectAttempts = 1 :=
  send_command_error_drops_socket { id := 1, sock := some () } wTimeout wTimeout "ping" "ping"
    none none ErrKind.exception "Timeout waiting for Blender response" rfl

/-- C3 (confirmed): a single `send_command` call makes at most one
reconnection attempt.  With no socket present, `connect()` is invoked exactly
once, and when that attempt fails the call raises
`ConnectionError("Not connected to Blender")` with no retry; with a socket
already present, no connection attempt is made at all. -/
theorem send_command_single_reconnect (c : Conn) (w : World) (t : String) (p : Option JValue) :
    (c.sock = none → (send_command c w t p).connectAttempts = 1 ∧
      (w.connectOk = false →
        (send_command c w t p).result =
          CmdResult.err ErrKind.connectionError "Not connected to Blender")) ∧
    (∀ u, c.sock = some u → (send_command c w t p).connectAttempts = 0) := by
  constructor
  · intro h
    refine ⟨send_command_attempts_of_none c w t p h, ?_⟩
    intro hw
    unfold send_command
    rw [h]
    dsimp only
    have hok : ¬(connect c w).2 = true := by simp [connect, h, hw]
    rw [if_neg hok]
  · intro u hu
    unfold send_command
    rw [hu]
    exact send_body_attempts c w t p 0

/-- C3 witness: with no socket and a failing `connect()`, one attempt is made
and the call ends in the `ConnectionError`. -/
theorem send_command_single_reconnect_witness :
    (send_command { id := 1, sock := none } wNoConnect "ping" none).connectAttempts = 1 ∧
    (send_command { id := 1, sock := none } wNoConnect "ping" none).result =
      CmdResult.err ErrKind.connectionError "Not connected to Blender" := by
  have h := (send_command_single_reconnect { id := 1, sock := none } wNoConnect "ping" none).1 rfl
  exact ⟨h.1, h.2 rfl⟩

/-- C7 (confirmed): the MCP server and the bundled addon disagree on the
command-name key.  `send_command` builds its dict with the keys `type`,
`params`, `id`, `timestamp` — no `action` key — and that dict is exactly what
it writes to the socket; on any such dict the addon's `execute_command`
takes the unknown-action branch and returns
`{"success": False, "error": "Unknown action: None"}` making no host API
call. -/
theorem send_command_action_key_mismatch (env : HostEnv) (w : World)
    (commandType : String) (params : JValue) (idStr ts : String)
    (i : Nat) (p : Option JValue) :
    jGet "action" [("type", JValue.str commandType), ("params", params),
      ("id", JValue.str idStr), ("timestamp", JValue.num ts)] = none ∧
    execute_command env (sentCommand commandType params idStr ts) =
      (errorDict "Unknown action: None", []) ∧
    (send_command { id := i, sock := some () } w commandType p).sent =
      [sentCommand commandType (paramsOrEmpty p) w.idStr w.ts] :=
  ⟨rfl, rfl, send_body_sent { id := i, sock := some () } w commandType p 0⟩

/-- C4 (confirmed): `get_blender_connection` keeps a single persistent
connection.  When a global connection exists and the `ping` on it succeeds,
that very connection object (same identity) is returned and nothing new is
constructed; a new `BlenderConnection` is created and connected only when no
global connection exists or the ping raised, and in the ping-failure case the
stale connection is disconnected before being replaced. -/
theorem get_blender_connection_persistent (g : Option Conn) (newId : Nat) (w : World) :
    (∀ c, g = some c →
      (∀ r, (send_command c w "ping" none).result = CmdResult.ok r →
        get_blender_connection g newId w =
          { global := some (send_command c w "ping" none).conn,
            result := GetResult.ok (send_command c w "ping" none).conn,
            createdNew := false, disconnectedOld := false } ∧
        (send_command c w "ping" none).conn.id = c.id) ∧
      (∀ k m, (send_command c w "ping" none).result = CmdResult.err k m →
        get_blender_connection g newId w = create_new_connection newId w true)) ∧
    (g = none → get_blender_connection g newId w = create_new_connection newId w false) ∧
    (∀ dOld, (create_new_connection newId w dOld).createdNew = true ∧
      (create_new_connection newId w dOld).disconnectedOld = dOld) := by
  refine ⟨?_, ?_, ?_⟩
  · intro c hg
    subst hg
    constructor
    · intro r hok
      refine ⟨?_, send_command_conn_id c w "ping" none⟩
      unfold get_blender_connection
      dsimp only
      rw [hok]
    · intro k m herr
      unfold get_blender_connection
      dsimp only
      rw [herr]
  · intro hg
    subst hg
    rfl
  · intro dOld
    unfold create_new_connection
    dsimp only
    by_cases hok : (connect { id := newId, sock := none } w).2 = true
    · rw [if_pos hok]
      exact ⟨rfl, rfl⟩
    · rw [if_neg hok]
      exact ⟨rfl, rfl⟩

/-- C4 witness: a live global connection whose ping succeeds is returned
unchanged and nothing new is constructed. -/
theorem get_blender_connection_persistent_witness :
    (get_blender_connection (some { id := 7, sock := some () }) 9 wPingOk).createdNew = false ∧
    (get_blender_connection (some { id := 7, sock := some () }) 9 wPingOk).result =
      GetResult.ok { id := 7, sock := some () } := by
  have h := ((get_blender_connection_persistent (some { id := 7, sock := some () }) 9 wPingOk).1
      { id := 7, sock := some () } rfl).1 (JValue.obj []) rfl
  rw [h.1]
  exact ⟨rfl, rfl⟩

theorem isAct_eq_some (a : Option JValue) (s : String) (h : isAct a s = true) :
    a = some (JValue.str s) := by
  cases a with
  | none => exact absurd h (by simp [isAct])
  | some v =>
    cases v with
    | str t =>
      simp only [isAct] at h
      rw [eq_of_beq h]
    | null => exact absurd h (by simp [isAct])
    | bool b => exact absurd h (by simp [isAct])
    | num l => exact absurd h (by simp [isAct])
    | arr es => exact absurd h (by simp [isAct])
    | obj fs => exact absurd h (by simp [isAct])

theorem primitive_add_ok_key (env : HostEnv) (call : HostCall) (m : String) (params : JValue) :
    ∀ v calls, primitive_add env call m params = (Except.ok v, calls) →
      hasKey "success" v = true := by
  unfold primitive_add
  repeat' split
  all_goals intro v calls h
  all_goals first
  | (simp only [Prod.mk.injEq, Except.ok.injEq] at h
     obtain ⟨rfl, rfl⟩ := h
     rfl)
  | simp at h

theorem delete_object_branch_ok_key (env : HostEnv) (params : JValue) :
    ∀ v calls, delete_object_branch env params = (Except.ok v, calls) →
      hasKey "success" v = true := by
  unfold delete_object_branch
  repeat' split
  all_goals intro v calls h
  all_goals first
  | (simp only [Prod.mk.injEq, Except.ok.injEq] at h
     obtain ⟨rfl, rfl⟩ := h
     rfl)
  | simp at h

theorem move_object_branch_ok_key (env : HostEnv) (params : JValue) :
    ∀ v calls, move_object_branch env params = (Except.ok v, calls) →
      hasKey "success" v = true := by
  unfold move_object_branch
  cases params with
  | obj ps =>
    dsimp only
    generalize ((jGet "location" ps).getD
      (JValue.arr [JValue.num "0", JValue.num "0", JValue.num "0"])) = loc
    intro v calls h
    repeat' split at h
    all_goals first
    | (simp only [Prod.mk.injEq, Except.ok.injEq] at h
       obtain ⟨rfl, rfl⟩ := h
       rfl)
    | simp at h
  | null => intro v calls h; simp at h
  | bool b => intro v calls h; simp at h
  | num l => intro v calls h; simp at h
  | str s => intro v calls h; simp at h
  | arr es => intro v calls h; simp at h

theorem render_branch_ok_key (env : HostEnv) :
    ∀ v calls, render_branch env = (Except.ok v, calls) → hasKey "success" v = true := by
  unfold render_branch
  repeat' split
  all_goals intro v calls h
  all_goals first
  | (simp only [Prod.mk.injEq, Except.ok.injEq] at h
     obtain ⟨rfl, rfl⟩ := h
     rfl)
  | simp at h

theorem save_file_branch_ok_key (env : HostEnv) (params : JValue) :
    ∀ v calls, save_file_branch env params = (Except.ok v, calls) →
      hasKey "success" v = true := by
  unfold save_file_branch
  cases params with
  | obj ps =>
    dsimp only
    generalize ((jGet "filepath" ps).getD JValue.null) = fp
    intro v calls h
    repeat' split at h
    all_goals first
    | (simp only [Prod.mk.injEq, Except.ok.injEq] at h
       obtain ⟨rfl, rfl⟩ := h
       rfl)
    | simp at h
  | null => intro v calls h; simp at h
  | bool b => intro v calls h; simp at h
  | num l => intro v calls h; simp at h
  | str s => intro v calls h; simp at h
  | arr es => intro v calls h; simp at h

theorem eval_branch_ok_key (env : HostEnv) (params : JValue) :
    ∀ v calls, eval_branch env params = (Except.ok v, calls) → hasKey "success" v = true := by
  unfold eval_branch
  cases params with
  | obj ps =>
    dsimp only
    generalize ((jGet "code" ps).getD JValue.null) = cd
    intro v calls h
    repeat' split at h
    all_goals first
    | (simp only [Prod.mk.injEq, Except.ok.injEq] at h
       obtain ⟨rfl, rfl⟩ := h
       rfl)
    | simp at h
  | null => intro v calls h; simp at h
  | bool b => intro v calls h; simp at h
  | num l => intro v calls h; simp at h
  | str s => intro v calls h; simp at h
  | arr es => intro v calls h; simp at h

theorem executeFields_ok_key (env : HostEnv) (fields : List (String × JValue)) :
    ∀ v calls, executeFields env fields = (Except.ok v, calls) → hasKey "success" v = true := by
  unfold executeFields
  dsimp only
  by_cases h1 : isAct (jGet "action" fields) "add_cube" = true
  · rw [if_pos h1]; exact primitive_add_ok_key env _ _ _
  rw [if_neg h1]
  by_cases h2 : isAct (jGet "action" fields) "add_sphere" = true
  · rw [if_pos h2]; exact primitive_add_ok_key env _ _ _
  rw [if_neg h2]
  by_cases h3 : isAct (jGet "action" fields) "add_cylinder" = true
  · rw [if_pos h3]; exact primitive_add_ok_key env _ _ _
  rw [if_neg h3]
  by_cases h4 : isAct (jGet "action" fields) "delete_object" = true
  · rw [if_pos h4]; exact delete_object_branch_ok_key env _
  rw [if_neg h4]
  by_cases h5 : isAct (jGet "action" fields) "move_object" = true
  · rw [if_pos h5]; exact move_object_branch_ok_key env _
  rw [if_neg h5]
  by_cases h6 : isAct (jGet "action" fields) "render" = true
  · rw [if_pos h6]; exact render_branch_ok_key env
  rw [if_neg h6]
  by_cases h7 : isAct (jGet "action" fields) "save_file" = true
  · rw [if_pos h7]; exact save_file_branch_ok_key env _
  rw [if_neg h7]
  by_cases h8 : isAct (jGet "action" fields) "eval" = true
  · rw [if_pos h8]; exact eval_branch_ok_key env _
  rw [if_neg h8]
  intro v calls h
  simp only [Prod.mk.injEq, Except.ok.injEq] at h
  obtain ⟨rfl, rfl⟩ := h
  rfl

theorem executeBody_ok_success_key (env : HostEnv) (cmd : JValue) :
    ∀ v calls, executeBody env cmd = (Except.ok v, calls) → hasKey "success" v = true := by
  unfold executeBody
  cases cmd with
  | obj fields => exact executeFields_ok_key env fields
  | null => intro v calls h; simp at h
  | bool b => intro v calls h; simp at h
  | num l => intro v calls h; simp at h
  | str s => intro v calls h; simp at h
  | arr es => intro v calls h; simp at h

theorem execute_command_success_key (env : HostEnv) (cmd : JValue) :
    hasKey "success" (execute_command env cmd).1 = true := by
  unfold execute_command
  cases hb : executeBody env cmd with
  | mk r calls =>
    cases r with
    | ok v => exact executeBody_ok_success_key env cmd v calls hb
    | error e => rfl

theorem execute_unknown_action (env : HostEnv) (fields : List (String × JValue))
    (h : isUnknownAction (jGet "action" fields) = true) :
    execute_command env (JValue.obj fields) =
      (errorDict ("Unknown action: " ++ pyStrOpt (jGet "action" fields)), []) := by
  have hany : recognizedActions.any (fun s => isAct (jGet "action" fields) s) = false := by
    cases hx : recognizedActions.any (fun s => isAct (jGet "action" fields) s)
    · rfl
    · unfold isUnknownAction at h
      rw [hx] at h
      exact absurd h (by simp)
  have h8 : ∀ s ∈ recognizedActions, isAct (jGet "action" fields) s = false := by
    intro s hs
    exact Bool.eq_false_iff.mpr (List.any_eq_false.mp hany s hs)
  have h1 := h8 "add_cube" (by simp [recognizedActions])
  have h2 := h8 "add_sphere" (by simp [recognizedActions])
  have h3 := h8 "add_cylinder" (by simp [recognizedActions])
  have h4 := h8 "delete_object" (by simp [recognizedActions])
  have h5 := h8 "move_object" (by simp [recognizedActions])
  have h6 := h8 "render" (by simp [recognizedActions])
  have h7 := h8 "save_file" (by simp [recognizedActions])
  have h9 := h8 "eval" (by simp [recognizedActions])
  unfold execute_command executeBody executeFields
  dsimp only
  rw [h1, h2, h3, h4, h5, h6, h7, h9]
  rfl

theorem execute_add_cube (env : HostEnv) (fields ps : List (String × JValue))
    (ha : isAct (jGet "action" fields) "add_cube" = true)
    (hp : (jGet "params" fields).getD (JValue.obj []) = JValue.obj ps)
    (hop : env.opResult (HostCall.cubeAdd (JValue.obj ps)) = Except.ok ()) :
    execute_command env (JValue.obj fields) =
      (successMsg "Cube added", [HostCall.cubeAdd (JValue.obj ps)]) := by
  have ha2 := isAct_eq_some _ _ ha
  unfold execute_command executeBody executeFields
  dsimp only
  rw [ha2, hp]
  rw [if_pos (show isAct (some (JValue.str "add_cube")) "add_cube" = true from rfl)]
  unfold primitive_add
  rw [hop]

theorem execute_add_cube_raise (env : HostEnv) (fields ps : List (String × JValue)) (e : String)
    (ha : isAct (jGet "action" fields) "add_cube" = true)
    (hp : (jGet "params" fields).getD (JValue.obj []) = JValue.obj ps)
    (hop : env.opResult (HostCall.cubeAdd (JValue.obj ps)) = Except.error e) :
    execute_command env (JValue.obj fields) =
      (errorDict e, [HostCall.cubeAdd (JValue.obj ps)]) := by
  have ha2 := isAct_eq_some _ _ ha
  unfold execute_command executeBody executeFields
  dsimp only
  rw [ha2, hp]
  rw [if_pos (show isAct (some (JValue.str "add_cube")) "add_cube" = true from rfl)]
  unfold primitive_add
  rw [hop]

theorem execute_add_sphere (env : HostEnv) (fields ps : List (String × JValue))
    (ha : isAct (jGet "action" fields) "add_sphere" = true)
    (hp : (jGet "params" fields).getD (JValue.obj []) = JValue.obj ps)
    (hop : env.opResult (HostCall.sphereAdd (JValue.obj ps)) = Except.ok ()) :
    execute_command env (JValue.obj fields) =
      (successMsg "Sphere added", [HostCall.sphereAdd (JValue.obj ps)]) := by
  have ha2 := isAct_eq_some _ _ ha
  unfold execute_command executeBody executeFields
  dsimp only
  rw [ha2, hp]
  rw [if_neg (show ¬isAct (some (JValue.str "add_sphere")) "add_cube" = true by decide)]
  rw [if_pos (show isAct (some (JValue.str "add_sphere")) "add_sphere" = true from rfl)]
  unfold primitive_add
  rw [hop]

theorem execute_add_cylinder (env : HostEnv) (fields ps : List (String × JValue))
    (ha : isAct (jGet "action" fields) "add_cylinder" = true)
    (hp : (jGet "params" fields).getD (JValue.obj []) = JValue.obj ps)
    (hop : env.opResult (HostCall.cylinderAdd (JValue.obj ps)) = Except.ok ()) :
    execute_command env (JValue.obj fields) =
      (successMsg "Cylinder added", [HostCall.cylinderAdd (JValue.obj ps)]) := by
  have ha2 := isAct_eq_some _ _ ha
  unfold execute_command executeBody executeFields
  dsimp only
  rw [ha2, hp]
  rw [if_neg (show ¬isAct (some (JValue.str "add_cylinder")) "add_cube" = true by decide)]
  rw [if_neg (show ¬isAct (some (JValue.str "add_cylinder")) "add_sphere" = true by decide)]
  rw [if_pos (show isAct (some (JValue.str "add_cylinder")) "add_cylinder" = true from rfl)]
  unfold primitive_add
  rw [hop]

theorem execute_delete_found (env : HostEnv) (fields ps : List (String × JValue)) (s : String)
    (ha : isAct (jGet "action" fields) "delete_object" = true)
    (hp : (jGet "params" fields).getD (JValue.obj []) = JValue.obj ps)
    (hn : jGet "name" ps = some (JValue.str s))
    (hs : s ≠ "") (hm : s ∈ env.objects)
    (hop : env.opResult (HostCall.objectRemove s) = Except.ok ()) :
    execute_command env (JValue.obj fields) =
      (successMsg ("Object " ++ quoted s ++ " deleted"), [HostCall.objectRemove s]) := by
  have ha2 := isAct_eq_some _ _ ha
  unfold execute_command executeBody executeFields
  dsimp only
  rw [ha2, hp]
  rw [if_neg (show ¬isAct (some (JValue.str "delete_object")) "add_cube" = true by decide)]
  rw [if_neg (show ¬isAct (some (JValue.str "delete_object")) "add_sphere" = true by decide)]
  rw [if_neg (show ¬isAct (some (JValue.str "delete_object")) "add_cylinder" = true by decide)]
  rw [if_pos (show isAct (some (JValue.str "delete_object")) "delete_object" = true from rfl)]
  unfold delete_object_branch
  dsimp only
  rw [hn]
  dsimp only
  rw [if_pos ⟨hs, hm⟩]
  rw [hop]

theorem execute_delete_not_found (env : HostEnv) (fields ps : List (String × JValue)) (s : String)
    (ha : isAct (jGet "action" fields) "delete_object" = true)
    (hp : (jGet "params" fields).getD (JValue.obj []) = JValue.obj ps)
    (hn : jGet "name" ps = some (JValue.str s))
    (hnot : ¬(s ≠ "" ∧ s ∈ env.objects)) :
    execute_command env (JValue.obj fields) = (errorDict "Object not found", []) := by
  have ha2 := isAct_eq_some _ _ ha
  unfold execute_command executeBody executeFields
  dsimp only
  rw [ha2, hp]
  rw [if_neg (show ¬isAct (some (JValue.str "delete_object")) "add_cube" = true by decide)]
  rw [if_neg (show ¬isAct (some (JValue.str "delete_object")) "add_sphere" = true by decide)]
  rw [if_neg (show ¬isAct (some (JValue.str "delete_object")) "add_cylinder" = true by decide)]
  rw [if_pos (show isAct (some (JValue.str "delete_object")) "delete_object" = true from rfl)]
  unfold delete_object_branch
  dsimp only
  rw [hn]
  dsimp only
  rw [if_neg hnot]

theorem execute_delete_no_name (env : HostEnv) (fields ps : List (String × JValue))
    (ha : isAct (jGet "action" fields) "delete_object" = true)
    (hp : (jGet "params" fields).getD (JValue.obj []) = JValue.obj ps)
    (hn : jGet "name" ps = none) :
    execute_command env (JValue.obj fields) = (errorDict "Object not found", []) := by
  have ha2 := isAct_eq_some _ _ ha
  unfold execute_command executeBody executeFields
  dsimp only
  rw [ha2, hp]
  rw [if_neg (show ¬isAct (some (JValue.str "delete_object")) "add_cube" = true by decide)]
  rw [if_neg (show ¬isAct (some (JValue.str "delete_object")) "add_sphere" = true by decide)]
  rw [if_neg (show ¬isAct (some (JValue.str "delete_object")) "add_cylinder" = true by decide)]
  rw [if_pos (show isAct (some (JValue.str "delete_object")) "delete_object" = true from rfl)]
  unfold delete_object_branch
  dsimp only
  rw [hn]

theorem execute_move_found (env : HostEnv) (fields ps : List (String × JValue)) (s : String)
    (ha : isAct (jGet "action" fields) "move_object" = true)
    (hp : (jGet "params" fields).getD (JValue.obj []) = JValue.obj ps)
    (hn : jGet "name" ps = some (JValue.str s))
    (hs : s ≠ "") (hm : s ∈ env.objects)
    (hop : env.opResult (HostCall.setLocation s ((jGet "location" ps).getD
      (JValue.arr [JValue.num "0", JValue.num "0", JValue.num "0"]))) = Except.ok ()) :
    execute_command env (JValue.obj fields) =
      (successMsg ("Object " ++ quoted s ++ " moved"),
        [HostCall.setLocation s ((jGet "location" ps).getD
          (JValue.arr [JValue.num "0", JValue.num "0", JValue.num "0"]))]) := by
  have ha2 := isAct_eq_some _ _ ha
  unfold execute_command executeBody executeFields
  dsimp only
  rw [ha2, hp]
  rw [if_neg (show ¬isAct (some (JValue.str "move_object")) "add_cube" = true by decide)]
  rw [if_neg (show ¬isAct (some (JValue.str "move_object")) "add_sphere" = true by decide)]
  rw [if_neg (show ¬isAct (some (JValue.str "move_object")) "add_cylinder" = true by decide)]
  rw [if_neg (show ¬isAct (some (JValue.str "move_object")) "delete_object" = true by decide)]
  rw [if_pos (show isAct (some (JValue.str "move_object")) "move_object" = true from rfl)]
  unfold move_object_branch
  dsimp only
  rw [hn]
  dsimp only
  rw [if_pos ⟨hs, hm⟩]
  rw [hop]

theorem execute_render (env : HostEnv) (fields : List (String × JValue))
    (ha : isAct (jGet "action" fields) "render" = true)
    (hop : env.opResult HostCall.render = Except.ok ()) :
    execute_command env (JValue.obj fields) =
      (successMsg "Render complete", [HostCall.render]) := by
  have ha2 := isAct_eq_some _ _ ha
  unfold execute_command executeBody executeFields
  dsimp only
  rw [ha2]
  rw [if_neg (show ¬isAct (some (JValue.str "render")) "add_cube" = true by decide)]
  rw [if_neg (show ¬isAct (some (JValue.str "render")) "add_sphere" = true by decide)]
  rw [if_neg (show ¬isAct (some (JValue.str "render")) "add_cylinder" = true by decide)]
  rw [if_neg (show ¬isAct (some (JValue.str "render")) "delete_object" = true by decide)]
  rw [if_neg (show ¬isAct (some (JValue.str "render")) "move_object" = true by decide)]
  rw [if_pos (show isAct (some (JValue.str "render")) "render" = true from rfl)]
  unfold render_branch
  rw [hop]

theorem execute_save_file (env : HostEnv) (fields ps : List (String × JValue))
    (ha : isAct (jGet "action" fields) "save_file" = true)
    (hp : (jGet "params" fields).getD (JValue.obj []) = JValue.obj ps)
    (hop : env.opResult (HostCall.saveMainfile ((jGet "filepath" ps).getD JValue.null)) =
      Except.ok ()) :
    execute_command env (JValue.obj fields) =
      (successMsg ("File saved to " ++ pyStr ((jGet "filepath" ps).getD JValue.null)),
        [HostCall.saveMainfile ((jGet "filepath" ps).getD JValue.null)]) := by
  have ha2 := isAct_eq_some _ _ ha
  unfold execute_command executeBody executeFields
  dsimp only
  rw [ha2, hp]
  rw [if_neg (show ¬isAct (some (JValue.str "save_file")) "add_cube" = true by decide)]
  rw [if_neg (show ¬isAct (some (JValue.str "save_file")) "add_sphere" = true by decide)]
  rw [if_neg (show ¬isAct (some (JValue.str "save_file")) "add_cylinder" = true by decide)]
  rw [if_neg (show ¬isAct (some (JValue.str "save_file")) "delete_object" = true by decide)]
  rw [if_neg (show ¬isAct (some (JValue.str "save_file")) "move_object" = true by decide)]
  rw [if_neg (show ¬isAct (some (JValue.str "save_file")) "render" = true by decide)]
  rw [if_pos (show isAct (some (JValue.str "save_file")) "save_file" = true from rfl)]
  unfold save_file_branch
  dsimp only
  rw [hop]

theorem execute_eval (env : HostEnv) (fields ps : List (String × JValue)) (r : String)
    (ha : isAct (jGet "action" fields) "eval" = true)
    (hp : (jGet "params" fields).getD (JValue.obj []) = JValue.obj ps)
    (hev : env.evalResult ((jGet "code" ps).getD JValue.null) = Except.ok r) :
    execute_command env (JValue.obj fields) =
      (JValue.obj [("success", JValue.bool true), ("result", JValue.str r)],
        [HostCall.evalCode ((jGet "code" ps).getD JValue.null)]) := by
  have ha2 := isAct_eq_some _ _ ha
  unfold execute_command executeBody executeFields
  dsimp only
  rw [ha2, hp]
  rw [if_neg (show ¬isAct (some (JValue.str "eval")) "add_cube" = true by decide)]
  rw [if_neg (show ¬isAct (some (JValue.str "eval")) "add_sphere" = true by decide)]
  rw [if_neg (show ¬isAct (some (JValue.str "eval")) "add_cylinder" = true by decide)]
  rw [if_neg (show ¬isAct (some (JValue.str "eval")) "delete_object" = true by decide)]
  rw [if_neg (show ¬isAct (some (JValue.str "eval")) "move_object" = true by decide)]
  rw [if_neg (show ¬isAct (some (JValue.str "eval")) "render" = true by decide)]
  rw [if_neg (show ¬isAct (some (JValue.str "eval")) "save_file" = true by decide)]
  rw [if_pos (show isAct (some (JValue.str "eval")) "eval" = true from rfl)]
  unfold eval_branch
  dsimp only
  rw [hev]

theorem execute_add_sphere_raise (env : HostEnv) (fields ps : List (String × JValue))
    (e : String)
    (ha : isAct (jGet "action" fields) "add_sphere" = true)
    (hp : (jGet "params" fields).getD (JValue.obj []) = JValue.obj ps)
    (hop : env.opResult (HostCall.sphereAdd (JValue.obj ps)) = Except.error e) :
    execute_command env (JValue.obj fields) =
      (errorDict e, [HostCall.sphereAdd (JValue.obj ps)]) := by
  have ha2 := isAct_eq_some _ _ ha
  unfold execute_command executeBody executeFields
  dsimp only
  rw [ha2, hp]
  rw [if_neg (show ¬isAct (some (JValue.str "add_sphere")) "add_cube" = true by decide)]
  rw [if_pos (show isAct (some (JValue.str "add_sphere")) "add_sphere" = true from rfl)]
  unfold primitive_add
  rw [hop]

theorem execute_add_cylinder_raise (env : HostEnv) (fields ps : List (String × JValue))
    (e : String)
    (ha : isAct (jGet "action" fields) "add_cylinder" = true)
    (hp : (jGet "params" fields).getD (JValue.obj []) = JValue.obj ps)
    (hop : env.opResult (HostCall.cylinderAdd (JValue.obj ps)) = Except.error e) :
    execute_command env (JValue.obj fields) =
      (errorDict e, [HostCall.cylinderAdd (JValue.obj ps)]) := by
  have ha2 := isAct_eq_some _ _ ha
  unfold execute_command executeBody executeFields
  dsimp only
  rw [ha2, hp]
  rw [if_neg (show ¬isAct (some (JValue.str "add_cylinder")) "add_cube" = true by decide)]
  rw [if_neg (show ¬isAct (some (JValue.str "add_cylinder")) "add_sphere" = true by decide)]
  rw [if_pos (show isAct (some (JValue.str "add_cylinder")) "add_cylinder" = true from rfl)]
  unfold primitive_add
  rw [hop]

theorem execute_delete_found_raise (env : HostEnv) (fields ps : List (String × JValue))
    (s e : String)
    (ha : isAct (jGet "action" fields) "delete_object" = true)
    (hp : (jGet "params" fields).getD (JValue.obj []) = JValue.obj ps)
    (hn : jGet "name" ps = some (JValue.str s))
    (hs : s ≠ "") (hm : s ∈ env.objects)
    (hop : env.opResult (HostCall.objectRemove s) = Except.error e) :
    execute_command env (JValue.obj fields) =
      (errorDict e, [HostCall.objectRemove s]) := by
  have ha2 := isAct_eq_some _ _ ha
  unfold execute_command executeBody executeFields
  dsimp only
  rw [ha2, hp]
  rw [if_neg (show ¬isAct (some (JValue.str "delete_object")) "add_cube" = true by decide)]
  rw [if_neg (show ¬isAct (some (JValue.str "delete_object")) "add_sphere" = true by decide)]
  rw [if_neg (show ¬isAct (some (JValue.str "delete_object")) "add_cylinder" = true by decide)]
  rw [if_pos (show isAct (some (JValue.str "delete_object")) "delete_object" = true from rfl)]
  unfold delete_object_branch
  dsimp only
  rw [hn]
  dsimp only
  rw [if_pos ⟨hs, hm⟩]
  rw [hop]

theorem execute_move_not_found (env : HostEnv) (fields ps : List (String × JValue)) (s : String)
    (ha : isAct (jGet "action" fields) "move_object" = true)
    (hp : (jGet "params" fields).getD (JValue.obj []) = JValue.obj ps)
    (hn : jGet "name" ps = some (JValue.str s))
    (hnot : ¬(s ≠ "" ∧ s ∈ env.objects)) :
    execute_command env (JValue.obj fields) = (errorDict "Object not found", []) := by
  have ha2 := isAct_eq_some _ _ ha
  unfold execute_command executeBody executeFields
  dsimp only
  rw [ha2, hp]
  rw [if_neg (show ¬isAct (some (JValue.str "move_object")) "add_cube" = true by decide)]
  rw [if_neg (show ¬isAct (some (JValue.str "move_object")) "add_sphere" = true by decide)]
  rw [if_neg (show ¬isAct (some (JValue.str "move_object")) "add_cylinder" = true by decide)]
  rw [if_neg (show ¬isAct (some (JValue.str "move_object")) "delete_object" = true by decide)]
  rw [if_pos (show isAct (some (JValue.str "move_object")) "move_object" = true from rfl)]
  unfold move_object_branch
  dsimp only
  rw [hn]
  dsimp only
  rw [if_neg hnot]

theorem execute_move_no_name (env : HostEnv) (fields ps : List (String × JValue))
    (ha : isAct (jGet "action" fields) "move_object" = true)
    (hp : (jGet "params" fields).getD (JValue.obj []) = JValue.obj ps)
    (hn : jGet "name" ps = none) :
    execute_command env (JValue.obj fields) = (errorDict "Object not found", []) := by
  have ha2 := isAct_eq_some _ _ ha
  unfold execute_command executeBody executeFields
  dsimp only
  rw [ha2, hp]
  rw [if_neg (show ¬isAct (some (JValue.str "move_object")) "add_cube" = true by decide)]
  rw [if_neg (show ¬isAct (some (JValue.str "move_object")) "add_sphere" = true by decide)]
  rw [if_neg (show ¬isAct (some (JValue.str "move_object")) "add_cylinder" = true by decide)]
  rw [if_neg (show ¬isAct (some (JValue.str "move_object")) "delete_object" = true by decide)]
  rw [if_pos (show isAct (some (JValue.str "move_object")) "move_object" = true from rfl)]
  unfold move_object_branch
  dsimp only
  rw [hn]

theorem execute_move_found_raise (env : HostEnv) (fields ps : List (String × JValue))
    (s e : String)
    (ha : isAct (jGet "action" fields) "move_object" = true)
    (hp : (jGet "params" fields).getD (JValue.obj []) = JValue.obj ps)
    (hn : jGet "name" ps = some (JValue.str s))
    (hs : s ≠ "") (hm : s ∈ env.objects)
    (hop : env.opResult (HostCall.setLocation s ((jGet "location" ps).getD
      (JValue.arr [JValue.num "0", JValue.num "0", JValue.num "0"]))) = Except.error e) :
    execute_command env (JValue.obj fields) =
      (errorDict e, [HostCall.setLocation s ((jGet "location" ps).getD
        (JValue.arr [JValue.num "0", JValue.num "0", JValue.num "0"]))]) := by
  have ha2 := isAct_eq_some _ _ ha
  unfold execute_command executeBody executeFields
  dsimp only
  rw [ha2, hp]
  rw [if_neg (show ¬isAct (some (JValue.str "move_object")) "add_cube" = true by decide)]
  rw [if_neg (show ¬isAct (some (JValue.str "move_object")) "add_sphere" = true by decide)]
  rw [if_neg (show ¬isAct (some (JValue.str "move_object")) "add_cylinder" = true by decide)]
  rw [if_neg (show ¬isAct (some (JValue.str "move_object")) "delete_object" = true by decide)]
  rw [if_pos (show isAct (some (JValue.str "move_object")) "move_object" = true from rfl)]
  unfold move_object_branch
  dsimp only
  rw [hn]
  dsimp only
  rw [if_pos ⟨hs, hm⟩]
  rw [hop]

theorem execute_render_raise (env : HostEnv) (fields : List (String × JValue)) (e : String)
    (ha : isAct (jGet "action" fields) "render" = true)
    (hop : env.opResult HostCall.render = Except.error e) :
    execute_command env (JValue.obj fields) = (errorDict e, [HostCall.render]) := by
  have ha2 := isAct_eq_some _ _ ha
  unfold execute_command executeBody executeFields
  dsimp only
  rw [ha2]
  rw [if_neg (show ¬isAct (some (JValue.str "render")) "add_cube" = true by decide)]
  rw [if_neg (show ¬isAct (some (JValue.str "render")) "add_sphere" = true by decide)]
  rw [if_neg (show ¬isAct (some (JValue.str "render")) "add_cylinder" = true by decide)]
  rw [if_neg (show ¬isAct (some (JValue.str "render")) "delete_object" = true by decide)]
  rw [if_neg (show ¬isAct (some (JValue.str "render")) "move_object" = true by decide)]
  rw [if_pos (show isAct (some (JValue.str "render")) "render" = true from rfl)]
  unfold render_branch
  rw [hop]

theorem execute_save_file_raise (env : HostEnv) (fields ps : List (String × JValue)) (e : String)
    (ha : isAct (jGet "action" fields) "save_file" = true)
    (hp : (jGet "params" fields).getD (JValue.obj []) = JValue.obj ps)
    (hop : env.opResult (HostCall.saveMainfile ((jGet "filepath" ps).getD JValue.null)) =
      Except.error e) :
    execute_command env (JValue.obj fields) =
      (errorDict e, [HostCall.saveMainfile ((jGet "filepath" ps).getD JValue.null)]) := by
  have ha2 := isAct_eq_some _ _ ha
  unfold execute_command executeBody executeFields
  dsimp only
  rw [ha2, hp]
  rw [if_neg (show ¬isAct (some (JValue.str "save_file")) "add_cube" = true by decide)]
  rw [if_neg (show ¬isAct (some (JValue.str "save_file")) "add_sphere" = true by decide)]
  rw [if_neg (show ¬isAct (some (JValue.str "save_file")) "add_cylinder" = true by decide)]
  rw [if_neg (show ¬isAct (some (JValue.str "save_file")) "delete_object" = true by decide)]
  rw [if_neg (show ¬isAct (some (JValue.str "save_file")) "move_object" = true by decide)]
  rw [if_neg (show ¬isAct (some (JValue.str "save_file")) "render" = true by decide)]
  rw [if_pos (show isAct (some (JValue.str "save_file")) "save_file" = true from rfl)]
  unfold save_file_branch
  dsimp only
  rw [hop]

theorem execute_eval_raise (env : HostEnv) (fields ps : List (String × JValue)) (e : String)
    (ha : isAct (jGet "action" fields) "eval" = true)
    (hp : (jGet "params" fields).getD (JValue.obj []) = JValue.obj ps)
    (hev : env.evalResult ((jGet "code" ps).getD JValue.null) = Except.error e) :
    execute_command env (JValue.obj fields) =
      (errorDict e, [HostCall.evalCode ((jGet "code" ps).getD JValue.null)]) := by
  have ha2 := isAct_eq_some _ _ ha
  unfold execute_command executeBody executeFields
  dsimp only
  rw [ha2, hp]
  rw [if_neg (show ¬isAct (some (JValue.str "eval")) "add_cube" = true by decide)]
  rw [if_neg (show ¬isAct (some (JValue.str "eval")) "add_sphere" = true by decide)]
  rw [if_neg (show ¬isAct (some (JValue.str "eval")) "add_cylinder" = true by decide)]
  rw [if_neg (show ¬isAct (some (JValue.str "eval")) "delete_object" = true by decide)]
  rw [if_neg (show ¬isAct (some (JValue.str "eval")) "move_object" = true by decide)]
  rw [if_neg (show ¬isAct (some (JValue.str "eval")) "render" = true by decide)]
  rw [if_neg (show ¬isAct (some (JValue.str "eval")) "save_file" = true by decide)]
  rw [if_pos (show isAct (some (JValue.str "eval")) "eval" = true from rfl)]
  unfold eval_branch
  dsimp only
  rw [hev]

/-- C5 counterexample: the recognized action `delete_object` with a name that
is not in `bpy.data.objects` returns a dict with success `False` and makes no
host API call — refuting the claim that every recognized action makes its
host API call and returns a success dict. -/
theorem execute_command_delete_missing_object :
    execute_command envNoOps
      (JValue.obj [("action", JValue.str "delete_object"),
        ("params", JValue.obj [("name", JValue.str "Ghost")])]) =
      (errorDict "Object not found", []) ∧
    isUnknownAction (some (JValue.str "delete_object")) = false ∧
    truthyOpt (jGet "success"
      [("success", JValue.bool false), ("error", JValue.str "Object not found")]) = false :=
  ⟨rfl, rfl, rfl⟩

/-- C5 (corrected): the dispatcher has one branch per recognized action name
and never raises to its caller.  For each of the eight recognized names the
branch makes the corresponding host API call and returns a success dict when
the call applies and succeeds; `delete_object` and `move_object` return an
`Object not found` error dict with no call when the named object is absent
or the name is missing; every branch whose host call raises returns an error
dict carrying the raised text, with the call logged; for any other `action`
value an `Unknown action` error dict is returned; in every case the returned
value is a dict bearing a `success` key. -/
theorem execute_command_dispatch :
    (∀ env cmd, hasKey "success" (execute_command env cmd).1 = true) ∧
    (∀ env fields, isUnknownAction (jGet "action" fields) = true →
      execute_command env (JValue.obj fields) =
        (errorDict ("Unknown action: " ++ pyStrOpt (jGet "action" fields)), [])) ∧
    (∀ env fields ps, isAct (jGet "action" fields) "add_cube" = true →
      (jGet "params" fields).getD (JValue.obj []) = JValue.obj ps →
      env.opResult (HostCall.cubeAdd (JValue.obj ps)) = Except.ok () →
      execute_command env (JValue.obj fields) =
        (successMsg "Cube added", [HostCall.cubeAdd (JValue.obj ps)])) ∧
    (∀ env fields ps e, isAct (jGet "action" fields) "add_cube" = true →
      (jGet "params" fields).getD (JValue.obj []) = JValue.obj ps →
      env.opResult (HostCall.cubeAdd (JValue.obj ps)) = Except.error e →
      execute_command env (JValue.obj fields) =
        (errorDict e, [HostCall.cubeAdd (JValue.obj ps)])) ∧
    (∀ env fields ps, isAct (jGet "action" fields) "add_sphere" = true →
      (jGet "params" fields).getD (JValue.obj []) = JValue.obj ps →
      env.opResult (HostCall.sphereAdd (JValue.obj ps)) = Except.ok () →
      execute_command env (JValue.obj fields) =
        (successMsg "Sphere added", [HostCall.sphereAdd (JValue.obj ps)])) ∧
    (∀ env fields ps, isAct (jGet "action" fields) "add_cylinder" = true →
      (jGet "params" fields).getD (JValue.obj []) = JValue.obj ps →
      env.opResult (HostCall.cylinderAdd (JValue.obj ps)) = Except.ok () →
      execute_command env (JValue.obj fields) =
        (successMsg "Cylinder added", [HostCall.cylinderAdd (JValue.obj ps)])) ∧
    (∀ env fields ps s, isAct (jGet "action" fields) "delete_object" = true →
      (jGet "params" fields).getD (JValue.obj []) = JValue.obj ps →
      jGet "name" ps = some (JValue.str s) → s ≠ "" → s ∈ env.objects →
      env.opResult (HostCall.objectRemove s) = Except.ok () →
      execute_command env (JValue.obj fields) =
        (successMsg ("Object " ++ quoted s ++ " deleted"), [HostCall.objectRemove s])) ∧
    (∀ env fields ps s, isAct (jGet "action" fields) "delete_object" = true →
      (jGet "params" fields).getD (JValue.obj []) = JValue.obj ps →
      jGet "name" ps = some (JValue.str s) → ¬(s ≠ "" ∧ s ∈ env.objects) →
      execute_command env (JValue.obj fields) = (errorDict "Object not found", [])) ∧
    (∀ env fields ps, isAct (jGet "action" fields) "delete_object" = true →
      (jGet "params" fields).getD (JValue.obj []) = JValue.obj ps →
      jGet "name" ps = none →
      execute_command env (JValue.obj fields) = (errorDict "Object not found", [])) ∧
    (∀ env fields ps s, isAct (jGet "action" fields) "move_object" = true →
      (jGet "params" fields).getD (JValue.obj []) = JValue.obj ps →
      jGet "name" ps = some (JValue.str s) → s ≠ "" → s ∈ env.objects →
      env.opResult (HostCall.setLocation s ((jGet "location" ps).getD
        (JValue.arr [JValue.num "0", JValue.num "0", JValue.num "0"]))) = Except.ok () →
      execute_command env (JValue.obj fields) =
        (successMsg ("Object " ++ quoted s ++ " moved"),
          [HostCall.setLocation s ((jGet "location" ps).getD
            (JValue.arr [JValue.num "0", JValue.num "0", JValue.num "0"]))])) ∧
    (∀ env fields, isAct (jGet "action" fields) "render" = true →
      env.opResult HostCall.render = Except.ok () →
      execute_command env (JValue.obj fields) =
        (successMsg "Render complete", [HostCall.render])) ∧
    (∀ env fields ps, isAct (jGet "action" fields) "save_file" = true →
      (jGet "params" fields).getD (JValue.obj []) = JValue.obj ps →
      env.opResult (HostCall.saveMainfile ((jGet "filepath" ps).getD JValue.null)) =
        Except.ok () →
      execute_command env (JValue.obj fields) =
        (successMsg ("File saved to " ++ pyStr ((jGet "filepath" ps).getD JValue.null)),
          [HostCall.saveMainfile ((jGet "filepath" ps).getD JValue.null)])) ∧
    (∀ env fields ps r, isAct (jGet "action" fields) "eval" = true →
      (jGet "params" fields).getD (JValue.obj []) = JValue.obj ps →
      env.evalResult ((jGet "code" ps).getD JValue.null) = Except.ok r →
      execute_command env (JValue.obj fields) =
        (JValue.obj [("success", JValue.bool true), ("result", JValue.str r)],
          [HostCall.evalCode ((jGet "code" ps).getD JValue.null)])) ∧
    (∀ env fields ps e, isAct (jGet "action" fields) "add_sphere" = true →
      (jGet "params" fields).getD (JValue.obj []) = JValue.obj ps →
      env.opResult (HostCall.sphereAdd (JValue.obj ps)) = Except.error e →
      execute_command env (JValue.obj fields) =
        (errorDict e, [HostCall.sphereAdd (JValue.obj ps)])) ∧
    (∀ env fields ps e, isAct (jGet "action" fields) "add_cylinder" = true →
      (jGet "params" fields).getD (JValue.obj []) = JValue.obj ps →
      env.opResult (HostCall.cylinderAdd (JValue.obj ps)) = Except.error e →
      execute_command env (JValue.obj fields) =
        (errorDict e, [HostCall.cylinderAdd (JValue.obj ps)])) ∧
    (∀ env fields ps s e, isAct (jGet "action" fields) "delete_object" = true →
      (jGet "params" fields).getD (JValue.obj []) = JValue.obj ps →
      jGet "name" ps = some (JValue.str s) → s ≠ "" → s ∈ env.objects →
      env.opResult (HostCall.objectRemove s) = Except.error e →
      execute_command env (JValue.obj fields) =
        (errorDict e, [HostCall.objectRemove s])) ∧
    (∀ env fields ps s, isAct (jGet "action" fields) "move_object" = true →
      (jGet "params" fields).getD (JValue.obj []) = JValue.obj ps →
      jGet "name" ps = some (JValue.str s) → ¬(s ≠ "" ∧ s ∈ env.objects) →
      execute_command env (JValue.obj fields) = (errorDict "Object not found", [])) ∧
    (∀ env fields ps, isAct (jGet "action" fields) "move_object" = true →
      (jGet "params" fields).getD (JValue.obj []) = JValue.obj ps →
      jGet "name" ps = none →
      execute_command env (JValue.obj fields) = (errorDict "Object not found", [])) ∧
    (∀ env fields ps s e, isAct (jGet "action" fields) "move_object" = true →
      (jGet "params" fields).getD (JValue.obj []) = JValue.obj ps →
      jGet "name" ps = some (JValue.str s) → s ≠ "" → s ∈ env.objects →
      env.opResult (HostCall.setLocation s ((jGet "location" ps).getD
        (JValue.arr [JValue.num "0", JValue.num "0", JValue.num "0"]))) = Except.error e →
      execute_command env (JValue.obj fields) =
        (errorDict e, [HostCall.setLocation s ((jGet "location" ps).getD
          (JValue.arr [JValue.num "0", JValue.num "0", JValue.num "0"]))])) ∧
    (∀ env fields e, isAct (jGet "action" fields) "render" = true →
      env.opResult HostCall.render = Except.error e →
      execute_command env (JValue.obj fields) = (errorDict e, [HostCall.render])) ∧
    (∀ env fields ps e, isAct (jGet "action" fields) "save_file" = true →
      (jGet "params" fields).getD (JValue.obj []) = JValue.obj ps →
      env.opResult (HostCall.saveMainfile ((jGet "filepath" ps).getD JValue.null)) =
        Except.error e →
      execute_command env (JValue.obj fields) =
        (errorDict e, [HostCall.saveMainfile ((jGet "filepath" ps).getD JValue.null)])) ∧
    (∀ env fields ps e, isAct (jGet "action" fields) "eval" = true →
      (jGet "params" fields).getD (JValue.obj []) = JValue.obj ps →
      env.evalResult ((jGet "code" ps).getD JValue.null) = Except.error e →
      execute_command env (JValue.obj fields) =
        (errorDict e, [HostCall.evalCode ((jGet "code" ps).getD JValue.null)])) :=
  ⟨execute_command_success_key, execute_unknown_action,
    fun env fields ps ha hp hop => execute_add_cube env fields ps ha hp hop,
    fun env fields ps e ha hp hop => execute_add_cube_raise env fields ps e ha hp hop,
    fun env fields ps ha hp hop => execute_add_sphere env fields ps ha hp hop,
    fun env fields ps ha hp hop => execute_add_cylinder env fields ps ha hp hop,
    fun env fields ps s ha hp hn hs hm hop =>
      execute_delete_found env fields ps s ha hp hn hs hm hop,
    fun env fields ps s ha hp hn hnot => execute_delete_not_found env fields ps s ha hp hn hnot,
    fun env fields ps ha hp hn => execute_delete_no_name env fields ps ha hp hn,
    fun env fields ps s ha hp hn hs hm hop =>
      execute_move_found env fields ps s ha hp hn hs hm hop,
    fun env fields ha hop => execute_render env fields ha hop,
    fun env fields ps ha hp hop => execute_save_file env fields ps ha hp hop,
    fun env fields ps r ha hp hev => execute_eval env fields ps r ha hp hev,
    fun env fields ps e ha hp hop => execute_add_sphere_raise env fields ps e ha hp hop,
    fun env fields ps e ha hp hop => execute_add_cylinder_raise env fields ps e ha hp hop,
    fun env fields ps s e ha hp hn hs hm hop =>
      execute_delete_found_raise env fields ps s e ha hp hn hs hm hop,
    fun env fields ps s ha hp hn hnot => execute_move_not_found env fields ps s ha hp hn hnot,
    fun env fields ps ha hp hn => execute_move_no_name env fields ps ha hp hn,
    fun env fields ps s e ha hp hn hs hm hop =>
      execute_move_found_raise env fields ps s e ha hp hn hs hm hop,
    fun env fields e ha hop => execute_render_raise env fields e ha hop,
    fun env fields ps e ha hp hop => execute_save_file_raise env fields ps e ha hp hop,
    fun env fields ps e ha hp hev => execute_eval_raise env fields ps e ha hp hev⟩

/-- C5 witness: the `add_cube` branch on a concrete command with a succeeding
host call. -/
theorem execute_command_dispatch_witness :
    execute_command envNoOps (JValue.obj [("action", JValue.str "add_cube"),
      ("params", JValue.obj [])]) =
      (successMsg "Cube added", [HostCall.cubeAdd (JValue.obj [])]) :=
  execute_command_dispatch.2.2.1 envNoOps
    [("action", JValue.str "add_cube"), ("params", JValue.obj [])] [] rfl rfl rfl

/-- C9 (confirmed): each of the seven destructive tools, invoked with
`confirm=False`, returns its `requires confirmation=True parameter` message
without reaching `get_blender_connection` and without sending any command, and
leaves the global connection untouched. -/
theorem destructive_tools_require_confirm (g : Option Conn) (newId : Nat) (wP wS : World)
    (sn ob mn md fp : String) (fs : String → Bool) :
    delete_scene g newId wP wS sn false =
      { global := g, result := ToolRes.msg "Scene deletion requires confirmation=True parameter",
        gotConnection := false, sends := [] } ∧
    clear_scene g newId wP wS false =
      { global := g, result := ToolRes.msg "Scene clearing requires confirmation=True parameter",
        gotConnection := false, sends := [] } ∧
    delete_object g newId wP wS ob false =
      { global := g, result := ToolRes.msg "Object deletion requires confirmation=True parameter",
        gotConnection := false, sends := [] } ∧
    delete_material g newId wP wS mn false =
      { global := g,
        result := ToolRes.msg "Material deletion requires confirmation=True parameter",
        gotConnection := false, sends := [] } ∧
    remove_modifier g newId wP wS ob md false =
      { global := g,
        result := ToolRes.msg "Modifier removal requires confirmation=True parameter",
        gotConnection := false, sends := [] } ∧
    clear_animation g newId wP wS ob false =
      { global := g,
        result := ToolRes.msg "Animation clearing requires confirmation=True parameter",
        gotConnection := false, sends := [] } ∧
    load_scene g newId wP wS fs fp false =
      { global := g, result := ToolRes.msg "Scene loading requires confirmation=True parameter",
        gotConnection := false, sends := [] } :=
  ⟨rfl, rfl, rfl, rfl, rfl, rfl, rfl⟩

end BlenderMcp
